import Mathlib

set_option maxRecDepth 100000

/-!
Verification of the reconciliation layer of the usaddress assembly module
(src/usaddress/assembly.py).  Python strings are modelled as Lean `String`
values; every Python string operation used by the source (upper, in,
replace, strip, the zip regular expression) is implemented structurally
over `String.data` so that all definitions are executable and all
predicates decidable.  The external tagger is out of scope: the embedding
starts from the tag mapping (an ordered association list, mirroring the
insertion-ordered Python dict) and the address-type label.
-/

namespace USAddr

/-- ASCII uppercase of one character, as Python str.upper acts on the
ASCII inputs this module receives. -/
def upperChar (c : Char) : Char :=
  if 'a' ≤ c ∧ c ≤ 'z' then Char.ofNat (c.toNat - 32) else c

/-- Uppercase a character list. -/
def upperL (l : List Char) : List Char := l.map upperChar

/-- Python str.upper on the embedded string type. -/
def pyUpper (s : String) : String := ⟨upperL s.data⟩

/-- Is the first list a leading segment of the second (Python startswith). -/
def isPref : List Char → List Char → Bool
  | [], _ => true
  | _ :: _, [] => false
  | a :: n, b :: h => a == b && isPref n h

/-- Python substring containment: `containsSub n h` is the test `n in h`. -/
def containsSub (n : List Char) : List Char → Bool
  | [] => n.isEmpty
  | c :: t => isPref n (c :: t) || containsSub n t

/-- Python str.replace, worker: replace every leftmost non-overlapping
occurrence of the pattern by the replacement, structurally recursive on a
fuel that the wrapper sets to the length of the subject; each step consumes
at least one subject character, so the fuel never runs out. -/
def replaceFuel (n v : List Char) : Nat → List Char → List Char
  | _, [] => []
  | 0, h => h
  | fuel + 1, c :: t =>
    if isPref n (c :: t) then
      match n with
      | [] => v ++ c :: replaceFuel [] v fuel t
      | _ :: n' => v ++ replaceFuel n v fuel (t.drop n'.length)
    else c :: replaceFuel n v fuel t

/-- Python str.replace: replace every leftmost non-overlapping occurrence
of the first list by the second inside the third. -/
def replaceAllL (n v h : List Char) : List Char := replaceFuel n v h.length h

/-- Python str.replace on the embedded string type. -/
def pyReplace (s pat rep : String) : String := ⟨replaceAllL pat.data rep.data s.data⟩

/-- The character class Python str.strip removes (ASCII whitespace). -/
def isPySpace (c : Char) : Bool :=
  c == ' ' || c == Char.ofNat 9 || c == Char.ofNat 10 || c == Char.ofNat 13 ||
  c == Char.ofNat 11 || c == Char.ofNat 12

/-- Python str.strip on a character list. -/
def stripL (l : List Char) : List Char :=
  (((l.dropWhile isPySpace).reverse).dropWhile isPySpace).reverse

/-- Python str.strip on the embedded string type. -/
def pyStrip (s : String) : String := ⟨stripL s.data⟩

/-- The separator class of the zip regular expression, [-\s]. -/
def isZipSep (c : Char) : Bool := c == '-' || isPySpace c

/-- Try to match the zip regular expression of assembly.py, five digits
optionally extended by a separator and four digits, anchored at the head
of the list; greedy on the optional extension, exactly as the regex. -/
def matchZipAt : List Char → Option (List Char)
  | c1 :: c2 :: c3 :: c4 :: c5 :: rest =>
    if c1.isDigit && c2.isDigit && c3.isDigit && c4.isDigit && c5.isDigit then
      match rest with
      | s :: d1 :: d2 :: d3 :: d4 :: _ =>
        if isZipSep s && d1.isDigit && d2.isDigit && d3.isDigit && d4.isDigit then
          some [c1, c2, c3, c4, c5, s, d1, d2, d3, d4]
        else some [c1, c2, c3, c4, c5]
      | _ => some [c1, c2, c3, c4, c5]
    else none
  | _ => none

/-- re.search with the zip pattern: leftmost match wins. -/
def zipsSearch : List Char → Option (List Char)
  | [] => none
  | c :: t =>
    match matchZipAt (c :: t) with
    | some m => some m
    | none => zipsSearch t

/-- The fixed USPS suffix table of street_to_abbreviated, as an association
list in the exact insertion (= iteration) order of the Python dict literal. -/
def suffix_mapping : List (String × String) := [("WAY", "WAY"), ("BYPSS", "BYP"), ("WLS", "WLS"), ("CPE", "CPE"), ("ORCHRD", "ORCH"), ("CRESCENT", "CRES"), ("FALL", "FALL"), ("BEACH", "BCH"), ("MSSN", "MSN"), ("KYS", "KY"), ("SPG", "SPG"), ("JCTN", "JCT"), ("TUNEL", "TUNL"), ("BYU", "BYU"), ("PARKWAYS", "PKY"), ("COVE", "CV"), ("BYP", "BYP"), ("SPRINGS", "SPGS"), ("ISLANDS", "ISS"), ("RIVER", "RIV"), ("SPUR", "SPUR"), ("JCTS", "JCT"), ("VIADCT", "VIA"), ("PINES", "PNES"), ("EXPRESS", "EXPY"), ("MNRS", "MNR"), ("TUNLS", "TUNL"), ("GROVES", "GRV"), ("SUMITT", "SMT"), ("OVL", "OVAL"), ("VIEW", "VW"), ("CRSNT", "CRES"), ("PKWYS", "PKY"), ("TRK", "TRAK"), ("SQUARE", "SQ"), ("CSWY", "CSWY"), ("CMP", "CP"), ("BPSS", "BYP"), ("CENTR", "CTR"), ("VLG", "VLG"), ("VLY", "VLY"), ("FRD", "FRD"), ("GRV", "GRV"), ("FLAT", "FLT"), ("LOAF", "LF"), ("JCTNS", "JCT"), ("INLET", "INLT"), ("UNION", "UN"), ("BAYOO", "BYU"), ("DRIVES", "DR"), ("BAYOU", "BYU"), ("GRN", "GRN"), ("FERRY", "FRY"), ("TRCE", "TRCE"), ("BLF", "BLF"), ("BYPAS", "BYP"), ("ML", "ML"), ("RADL", "RADL"), ("HLS", "HLS"), ("VWS", "VW"), ("MT", "MT"), ("GRDN", "GDNS"), ("FT", "FT"), ("GLN", "GLN"), ("CTS", "CTS"), ("SMT", "SMT"), ("KNOL", "KNLS"), ("STATION", "STA"), ("BEND", "BND"), ("CORNER", "COR"), ("POINT", "PT"), ("MDW", "MDWS"), ("BURGS", "BG"), ("ESTATE", "EST"), ("CRSENT", "CRES"), ("CORNERS", "CORS"), ("MOUNT", "MT"), ("MNTAIN", "MTN"), ("MEDOWS", "MDWS"), ("SPRNGS", "SPGS"), ("TURNPIKE", "TPKE"), ("CREEK", "CRK"), ("SQ", "SQ"), ("ST", "ST"), ("ALY", "ALY"), ("ROADS", "RD"), ("RADIEL", "RADL"), ("TRLS", "TRL"), ("RIDGE", "RDG"), ("FORESTS", "FRST"), ("GREEN", "GRN"), ("CAN", "CYN"), ("LF", "LF"), ("GARDN", "GDNS"), ("VDCT", "VIA"), ("LN", "LN"), ("AVN", "AVE"), ("BLUFF", "BLF"), ("CLIFFS", "CLFS"), ("STRAVN", "STRA"), ("FORK", "FRK"), ("STA", "STA"), ("STRAVE", "STRA"), ("KEYS", "KY"), ("STN", "STA"), ("RANCH", "RNCH"), ("HGTS", "HTS"), ("REST", "RST"), ("FORD", "FRD"), ("FRWAY", "FWY"), ("CRSSNG", "XING"), ("CNTR", "CTR"), ("STR", "ST"), ("KNOLL", "KNLS"), ("FORT", "FT"), ("BOUL", "BLVD"), ("HAVEN", "HVN"), ("NCK", "NCK"), ("RST", "RST"), ("PIKES", "PIKE"), ("GLENS", "GLN"), ("SQRE", "SQ"), ("RAPID", "RPDS"), ("PKWAY", "PKY"), ("LK", "LK"), ("GARDENS", "GDNS"), ("PIKE", "PIKE"), ("RAD", "RADL"), ("EXTS", "EXT"), ("BOTTOM", "BTM"), ("STRAV", "STRA"), ("FRRY", "FRY"), ("LCKS", "LCKS"), ("CNYN", "CYN"), ("RD", "RD"), ("PRT", "PRT"), ("PRR", "PR"), ("EXTN", "EXT"), ("ROAD", "RD"), ("CRSE", "CRSE"), ("TPK", "TPKE"), ("SHOARS", "SHRS"), ("VIA", "VIA"), ("XING", "XING"), ("STREME", "STRM"), ("LAKE", "LK"), ("TRAIL", "TRL"), ("RADIAL", "RADL"), ("EXPRESSWAY", "EXPY"), ("JUNCTIONS", "JCT"), ("CLIFF", "CLFS"), ("CNTER", "CTR"), ("TRAFFICWAY", "TRFY"), ("MEADOWS", "MDWS"), ("HARBORS", "HBR"), ("MOUNTAIN", "MTN"), ("GREENS", "GRN"), ("ANNX", "ANX"), ("CEN", "CTR"), ("PKY", "PKY"), ("FALLS", "FLS"), ("STRVN", "STRA"), ("BRNCH", "BR"), ("HILL", "HL"), ("VILLAGE", "VLG"), ("PLNS", "PLNS"), ("SHR", "SHR"), ("MISSN", "MSN"), ("FORG", "FRG"), ("PLAZA", "PLZ"), ("EXPY", "EXPY"), ("SHRS", "SHRS"), ("HWAY", "HWY"), ("SHL", "SHL"), ("HIGHWAY", "HWY"), ("GLEN", "GLN"), ("SHORES", "SHRS"), ("MOUNTIN", "MTN"), ("CRES", "CRES"), ("CANYON", "CYN"), ("LOOP", "LOOP"), ("FRKS", "FRKS"), ("BTM", "BTM"), ("CENTERS", "CTR"), ("COURT", "CT"), ("ISS", "ISS"), ("SPRING", "SPG"), ("TUNL", "TUNL"), ("HARBR", "HBR"), ("LAKES", "LKS"), ("COURTS", "CTS"), ("LANE", "LN"), ("BOTTM", "BTM"), ("JCTION", "JCT"), ("EXPR", "EXPY"), ("STREETS", "ST"), ("EXPW", "EXPY"), ("MISSION", "MSN"), ("CAUSEWAY", "CSWY"), ("VILLIAGE", "VLG"), ("GATEWY", "GTWY"), ("AVNU", "AVE"), ("FRG", "FRG"), ("MOUNTAINS", "MTN"), ("FRK", "FRK"), ("CLF", "CLFS"), ("CLB", "CLB"), ("TRKS", "TRAK"), ("FRT", "FT"), ("FRY", "FRY"), ("BOULV", "BLVD"), ("ISLNDS", "ISS"), ("HVN", "HVN"), ("KEY", "KY"), ("KY", "KY"), ("FLTS", "FLT"), ("BRIDGE", "BRG"), ("DL", "DL"), ("DM", "DM"), ("EXTENSION", "EXT"), ("LODG", "LDG"), ("VISTA", "VIS"), ("BPS", "BYP"), ("ESTATES", "EST"), ("ISLND", "IS"), ("DV", "DV"), ("PATH", "PATH"), ("DR", "DR"), ("HIGHWY", "HWY"), ("VALLEYS", "VLY"), ("CAMP", "CP"), ("RPD", "RPDS"), ("LOOPS", "LOOP"), ("CYN", "CYN"), ("RAPIDS", "RPDS"), ("HOLW", "HOLW"), ("RNCHS", "RNCH"), ("HOLLOW", "HOLW"), ("MLS", "MLS"), ("VALLY", "VLY"), ("MILL", "ML"), ("STRVNUE", "STRA"), ("ANNEX", "ANX"), ("PNES", "PNES"), ("TUNNL", "TUNL"), ("ISLES", "ISLE"), ("LGT", "LGT"), ("CIR", "CIR"), ("MEADOW", "MDWS"), ("TRAILS", "TRL"), ("EXT", "EXT"), ("STREET", "ST"), ("WELLS", "WLS"), ("EXP", "EXPY"), ("BLVD", "BLVD"), ("WY", "WAY"), ("CIRCLES", "CIR"), ("RIV", "RIV"), ("GRDEN", "GDNS"), ("TUNNELS", "TUNL"), ("PATHS", "PATH"), ("KNL", "KNLS"), ("PARK", "PARK"), ("VILLAGES", "VLG"), ("PARKS", "PARK"), ("TRACKS", "TRAK"), ("BLUF", "BLF"), ("PASS", "PASS"), ("BND", "BND"), ("GRDNS", "GDNS"), ("RDGS", "RDG"), ("LNDG", "LNDG"), ("LANDING", "LNDG"), ("RDGE", "RDG"), ("CIRCLE", "CIR"), ("CRT", "CT"), ("LIGHT", "LGT"), ("VLYS", "VLY"), ("FREEWAY", "FWY"), ("SHORE", "SHR"), ("CRK", "CRK"), ("PORT", "PRT"), ("SPNGS", "SPGS"), ("PR", "PR"), ("LDG", "LDG"), ("PT", "PT"), ("FIELDS", "FLDS"), ("DRIV", "DR"), ("HAVN", "HVN"), ("MALL", "MALL"), ("BYPASS", "BYP"), ("PK", "PARK"), ("PL", "PL"), ("BLV", "BLVD"), ("DIVIDE", "DV"), ("CLUB", "CLB"), ("VILL", "VLG"), ("LODGE", "LDG"), ("ANEX", "ANX"), ("NECK", "NCK"), ("TRACE", "TRCE"), ("TRACK", "TRAK"), ("FRST", "FRST"), ("STRT", "ST"), ("RPDS", "RPDS"), ("STRM", "STRM"), ("STRA", "STRA"), ("ANX", "ANX"), ("LCK", "LCKS"), ("COR", "COR"), ("JUNCTION", "JCT"), ("STREAM", "STRM"), ("DVD", "DV"), ("HARB", "HBR"), ("PRK", "PARK"), ("RIVR", "RIV"), ("OVAL", "OVAL"), ("CRECENT", "CRES"), ("VIST", "VIS"), ("MANOR", "MNR"), ("TUNNEL", "TUNL"), ("GTWAY", "GTWY"), ("PKWY", "PKY"), ("AVENU", "AVE"), ("JUNCTON", "JCT"), ("SUMMIT", "SMT"), ("HWY", "HWY"), ("MTIN", "MTN"), ("TRACES", "TRCE"), ("TERRACE", "TER"), ("CK", "CRK"), ("ORCHARD", "ORCH"), ("CENTRE", "CTR"), ("LOCK", "LCKS"), ("COVES", "CV"), ("FIELD", "FLD"), ("STATN", "STA"), ("CR", "CRK"), ("CP", "CP"), ("GROV", "GRV"), ("CV", "CV"), ("CT", "CT"), ("LNDNG", "LNDG"), ("RUN", "RUN"), ("CRESENT", "CRES"), ("PLZ", "PLZ"), ("TRAK", "TRAK"), ("LOCKS", "LCKS"), ("PLN", "PLN"), ("MNTN", "MTN"), ("TPKE", "TPKE"), ("RANCHES", "RNCH"), ("FRWY", "FWY"), ("DIV", "DV"), ("KNOLLS", "KNLS"), ("LIGHTS", "LGT"), ("CRCLE", "CIR"), ("HIWY", "HWY"), ("TERR", "TER"), ("JCT", "JCT"), ("INLT", "INLT"), ("IS", "IS"), ("BROOK", "BRK"), ("BROOKS", "BRK"), ("MTN", "MTN"), ("CIRCL", "CIR"), ("VW", "VW"), ("FLATS", "FLT"), ("ARCADE", "ARC"), ("PINE", "PNES"), ("ARC", "ARC"), ("LDGE", "LDG"), ("BG", "BG"), ("FREEWY", "FWY"), ("HILLS", "HLS"), ("BL", "BLVD"), ("WELL", "WLS"), ("SHLS", "SHLS"), ("BOT", "BTM"), ("BRDGE", "BRG"), ("DRV", "DR"), ("BV", "BLVD"), ("FWY", "FWY"), ("BR", "BR"), ("BCH", "BCH"), ("FORKS", "FRKS"), ("HIWAY", "HWY"), ("BY", "PASS"), ("VL", "VL"), ("HBR", "HBR"), ("TURNPK", "TPKE"), ("CTR", "CTR"), ("CENT", "CTR"), ("SPRNG", "SPG"), ("RVR", "RIV"), ("HOLWS", "HOLW"), ("PRAIRIE", "PR"), ("BRANCH", "BR"), ("VALLEY", "VLY"), ("ALLY", "ALY"), ("GROVE", "GRV"), ("CLFS", "CLFS"), ("RIDGES", "RDG"), ("PORTS", "PRT"), ("VILLAG", "VLG"), ("BYPA", "BYP"), ("VIEWS", "VW"), ("HARBOR", "HBR"), ("SQR", "SQ"), ("SQU", "SQ"), ("BYPS", "BYP"), ("BVD", "BLVD"), ("MANORS", "MNR"), ("ISLE", "ISLE"), ("CRCL", "CIR"), ("BURG", "BG"), ("HLLW", "HOLW"), ("GARDEN", "GDNS"), ("FLS", "FLS"), ("FLT", "FLT"), ("HT", "HTS"), ("HL", "HL"), ("BULEVARD", "BLVD"), ("AVENUE", "AVE"), ("FLD", "FLD"), ("GTWY", "GTWY"), ("LANES", "LN"), ("CENTER", "CTR"), ("VIS", "VIS"), ("MNR", "MNR"), ("PLAINES", "PLNS"), ("MNT", "MT"), ("PLAINS", "PLNS"), ("JUNCTN", "JCT"), ("PTS", "PT"), ("ROW", "ROW"), ("FORGES", "FRG"), ("BOULEVARD", "BLVD"), ("TRL", "TRL"), ("FORDS", "FRD"), ("COURSE", "CRSE"), ("PLACE", "PL"), ("CAPE", "CPE"), ("HEIGHTS", "HTS"), ("SHOAR", "SHR"), ("VIADUCT", "VIA"), ("PARKWY", "PKY"), ("UN", "UN"), ("HTS", "HTS"), ("SHOAL", "SHL"), ("CROSSING", "XING"), ("AVE", "AVE"), ("FLDS", "FLDS"), ("VLGS", "VLG"), ("AVNUE", "AVE"), ("ESTS", "EST"), ("FORGE", "FRG"), ("STRAVENUE", "STRA"), ("MNTNS", "MTN"), ("AVEN", "AVE"), ("VLLY", "VLY"), ("VSTA", "VIS"), ("WALKS", "WALK"), ("TRFY", "TRFY"), ("TER", "TER"), ("PRTS", "PRT"), ("RDS", "RD"), ("MILLS", "MLS"), ("RDG", "RDG"), ("KNLS", "KNLS"), ("CORS", "CORS"), ("CANYN", "CYN"), ("SPURS", "SPUR"), ("VILLE", "VL"), ("VILLG", "VLG"), ("WAYS", "WAY"), ("ISLAND", "IS"), ("SUMIT", "SMT"), ("MDWS", "MDWS"), ("CIRC", "CIR"), ("BRK", "BRK"), ("PRARIE", "PR"), ("BRG", "BRG"), ("GDN", "GDNS"), ("DALE", "DL"), ("TRNPK", "TPKE"), ("WALK", "WALK"), ("HRBOR", "HBR"), ("BLUFFS", "BLF"), ("DRIVE", "DR"), ("PLZA", "PLZ"), ("MSN", "MSN"), ("CRSSING", "XING"), ("PARKWAY", "PKY"), ("SPNG", "SPG"), ("EXTNSN", "EXT"), ("HEIGHT", "HTS"), ("DAM", "DM"), ("TR", "TRL"), ("ALLEY", "ALY"), ("LKS", "LKS"), ("ALLEE", "ALY"), ("POINTS", "PT"), ("FOREST", "FRST"), ("ORCH", "ORCH"), ("PLAIN", "PLN"), ("EST", "EST"), ("STRAVEN", "STRA"), ("SHOALS", "SHLS"), ("RNCH", "RNCH"), ("HOLLOWS", "HOLW"), ("AV", "AVE"), ("SQUARES", "SQ"), ("GDNS", "GDNS"), ("SPGS", "SPGS"), ("VST", "VIS"), ("CRSCNT", "CRES"), ("GATEWAY", "GTWY"), ("UNIONS", "UN"), ("GATWAY", "GTWY"), ("CAUSWAY", "CSWY")]

/-- The per-key match test of mapover: the Python condition
" m" in street_upper or " m " in street_upper. -/
def keyMatches (k : String) (su : List Char) : Bool :=
  containsSub (' ' :: k.data) su || containsSub ((' ' :: k.data) ++ [' ']) su

/-- One iteration of the selection loop of mapover: keep the candidate
key if it matches and is strictly longer than the best so far. -/
def selStep (su : List Char) (longest : String) (kv : String × String) : String :=
  if keyMatches kv.1 su then
    (if kv.1.length > longest.length then kv.1 else longest)
  else longest

/-- The selection loop of mapover: scan the table in order and keep the
first matching key of maximal length (strictly longer keys win). -/
def selectLongest (su : List Char) : String :=
  suffix_mapping.foldl (selStep su) ""

/-- Dictionary lookup in the suffix table (Python mapping[longest]). -/
def mappingVal (k : String) : String :=
  match suffix_mapping.find? (fun kv => kv.1 == k) with
  | some kv => kv.2
  | none => ""

/-- One pass of the abbreviator (the inner function mapover of
street_to_abbreviated): uppercase, select the longest space-preceded
matching key, and replace every occurrence of it; if nothing matched,
return the input unchanged. -/
def mapover (street : String) : String :=
  let su := upperL street.data
  let longest := selectLongest su
  if longest = "" then street
  else ⟨replaceAllL longest.data (mappingVal longest).data su⟩

/-- The repeat-until-no-change loop of street_to_abbreviated, with explicit
fuel standing for the number of while-loop iterations the Python code gets
to perform; `none` means the loop had not stabilised within the fuel. -/
def street_to_abbreviated : Nat → String → Option String
  | 0, _ => none
  | fuel + 1, old_street =>
    let street := mapover old_street
    if street = old_street then some street
    else street_to_abbreviated fuel street

deriving instance DecidableEq for Except

/-- The output record of normalize_address (the Address class). -/
structure Address where
  number : String
  street : String
  city : String
  state : String
  zipc : String
deriving DecidableEq

/-- The accumulator slots of the tag loop of normalize_address, one per
local variable of the Python function; `subaddr_part` is the variable
holding the sub-address composite. -/
structure LoopState where
  add_number : Option String
  add_number_suffix : Option String
  street_name_pretype : Option String
  street_name : Option String
  street_directional_pre : Option String
  street_directional_post : Option String
  street_type : Option String
  subaddr_part : Option String
  occ_type : Option String
  city : Option String
  state_name : Option String
  zipc : Option String
deriving DecidableEq

/-- All slots start as None. -/
def initState : LoopState :=
  ⟨none, none, none, none, none, none, none, none, none, none, none, none⟩

/-- Python `k in tagset`. -/
def hasKey (ts : List (String × String)) (k : String) : Bool :=
  ts.any (fun kv => kv.1 == k)

/-- Python `tagset[k]` (defaulting to the empty string where the source
only indexes keys it has already tested for membership). -/
def lookupTag (ts : List (String × String)) (k : String) : String :=
  match ts.find? (fun kv => kv.1 == k) with
  | some kv => kv.2
  | none => ""

/-- Python truthiness of an optional string: None and the empty string are
falsy; used for the post-loop `if slot:` tests of normalize_address. -/
def truthy : Option String → Bool
  | none => false
  | some s => !(s == "")

/-- One iteration of the tag loop of normalize_address: the elif chain on
one (tag, value) pair, with the whole tag mapping available for the
membership tests and lookups the source performs on `tagset` itself.
Raising AddressUnparsable is modelled by `Except.error reason`. -/
def stepTag (ts : List (String × String)) (st : LoopState) (tag val : String) :
    Except String LoopState :=
  if tag = "AddressNumber" then .ok { st with add_number := some val }
  else if tag = "AddressNumberSuffix" then .ok { st with add_number_suffix := some val }
  else if tag = "StreetNamePreDirectional" ∨ tag = "StreetNamePostDirectional" then
    if hasKey ts "StreetNamePreDirectional" = true ∧ hasKey ts "StreetNamePostDirectional" = true then
      .ok { st with street_directional_pre := some (lookupTag ts "StreetNamePreDirectional"),
                    street_directional_post := some (lookupTag ts "StreetNamePostDirectional") }
    else if st.street_name = none then .ok { st with street_directional_pre := some val }
    else .ok { st with street_directional_post := some val }
  else if tag = "StreetNamePreType" then
    let pt := if hasKey ts "StreetNamePreModifier" = true then
                lookupTag ts "StreetNamePreModifier" ++ " " ++ val
              else val
    .ok { st with street_name_pretype := some pt }
  else if tag = "StreetNamePreModifier" then
    if hasKey ts "StreetNamePreType" = false then
      .error ("Unexpected Tag Scenario: " ++ "StreetNamePreType")
    else .ok st
  else if tag = "StreetName" then .ok { st with street_name := some val }
  else if tag = "StreetNamePostType" then .ok { st with street_type := some val }
  else if tag = "SubaddressType" ∧ hasKey ts "SubaddressIdentifier" = true then
    .ok { st with subaddr_part := some (val ++ " " ++ lookupTag ts "SubaddressIdentifier") }
  else if tag = "SubaddressIdentifier" then .ok st
  else if tag = "OccupancyType" then
    let oc := if hasKey ts "OccupancyIdentifier" = true then
                val ++ " " ++ lookupTag ts "OccupancyIdentifier"
              else val
    .ok { st with occ_type := some oc }
  else if tag = "OccupancyIdentifier" then .ok st
  else if tag = "PlaceName" then
    match zipsSearch val.data, st.zipc with
    | some m, none =>
      .ok { st with zipc := some ⟨m⟩, city := some (pyStrip (pyReplace val ⟨m⟩ "")) }
    | _, _ => .ok { st with city := some val }
  else if tag = "StateName" then .ok { st with state_name := some val }
  else if tag = "ZipCode" then
    let z := if hasKey ts "ZipPlus4" = true then
               val ++ "-" ++ lookupTag ts "ZipPlus4"
             else val
    .ok { st with zipc := some z }
  else if tag = "ZipPlus4" then .ok st
  else .error ("Unexpected Tag: " ++ tag)

/-- Run the tag loop over a list of pairs, threading the state and
aborting on the first raise, with the full mapping as environment. -/
def runTags (ts : List (String × String)) :
    List (String × String) → LoopState → Except String LoopState
  | [], st => .ok st
  | (tag, val) :: rest, st =>
    match stepTag ts st tag val with
    | .ok st' => runTags ts rest st'
    | .error e => .error e

/-- The whole tag loop of normalize_address: iterate the mapping in its
insertion order starting from the all-None state. -/
def tagLoop (ts : List (String × String)) : Except String LoopState :=
  runTags ts ts initState

/-- The post-loop part of normalize_address (validation and street
assembly), with the abbreviation fuel threaded through; `none` means the
abbreviation loop had not stabilised within the fuel. -/
def postAssemble (fuel : Nat) (st : LoopState) : Option (Except String Address) :=
  match st.add_number with
  | none => some (.error "Missing street number")
  | some num0 =>
    let add_number :=
      if truthy st.add_number_suffix = true then num0 ++ " " ++ st.add_number_suffix.getD ""
      else num0
    match st.street_name with
    | none => some (.error "Missing street name")
    | some name0 =>
      let name1 :=
        if truthy st.street_name_pretype = true then
          st.street_name_pretype.getD "" ++ " " ++ name0
        else name0
      let name2 :=
        if truthy st.street_type = true then name1 ++ " " ++ st.street_type.getD ""
        else name1
      match street_to_abbreviated fuel name2 with
      | none => none
      | some name3 =>
        let name4 :=
          if truthy st.street_directional_pre = true then
            st.street_directional_pre.getD "" ++ " " ++ name3
          else name3
        let name5 :=
          if truthy st.street_directional_post = true then
            name4 ++ " " ++ st.street_directional_post.getD ""
          else name4
        let name6 :=
          if truthy st.subaddr_part = true then name5 ++ " " ++ st.subaddr_part.getD ""
          else name5
        let name7 :=
          if truthy st.occ_type = true then name6 ++ " " ++ st.occ_type.getD ""
          else name6
        if st.city = none ∨ st.state_name = none ∨ st.zipc = none then
          some (.error "Missing city, state, or zip")
        else
          some (.ok ⟨pyUpper add_number, pyUpper name7,
                     pyUpper (st.city.getD ""), pyUpper (st.state_name.getD ""),
                     st.zipc.getD ""⟩)

/-- normalize_address from the point after the external tagger returned:
takes the tag mapping and the address-type label, returns the Address or
the raise reason.  The abbreviation fuel bounds the while loop of
street_to_abbreviated; `none` means that loop had not stabilised. -/
def normalize_address (fuel : Nat) (ts : List (String × String)) (add_type : String) :
    Option (Except String Address) :=
  if add_type ≠ "Street Address" then
    some (.error ("Library has unknown address type of " ++ add_type))
  else
    match tagLoop ts with
    | .error e => some (.error e)
    | .ok st => postAssemble fuel st

/-- The other directional tag name. -/
def otherDirectional (t : String) : String :=
  if t = "StreetNamePreDirectional" then "StreetNamePostDirectional"
  else "StreetNamePreDirectional"

/-- Modelled from the wording of the specification (assembly-order bullet),
for comparison with the code: the combined string handed to the
abbreviation pass, pre-type (already carrying the pre-modifier) prefixed
to the street name, then the street post-type suffixed. -/
def specCore (st : LoopState) (name : String) : String :=
  let withPre :=
    if truthy st.street_name_pretype = true then st.street_name_pretype.getD "" ++ " " ++ name
    else name
  if truthy st.street_type = true then withPre ++ " " ++ st.street_type.getD ""
  else withPre

/-- Modelled from the wording of the specification (assembly-order bullet),
for comparison with the code: what happens after the abbreviation pass,
directional-pre prefixed, then directional-post, sub-address composite and
occupancy composite suffixed in that order. -/
def specFinish (st : LoopState) (abbreviated : String) : String :=
  let s1 :=
    if truthy st.street_directional_pre = true then
      st.street_directional_pre.getD "" ++ " " ++ abbreviated
    else abbreviated
  let s2 :=
    if truthy st.street_directional_post = true then
      s1 ++ " " ++ st.street_directional_post.getD ""
    else s1
  let s3 :=
    if truthy st.subaddr_part = true then s2 ++ " " ++ st.subaddr_part.getD ""
    else s2
  if truthy st.occ_type = true then s3 ++ " " ++ st.occ_type.getD ""
  else s3

/-- Values of an option slot are non-empty strings. -/
def optNE (o : Option String) : Prop := ∀ s, o = some s → s ≠ ""

/-- Every slot of the loop state except the city holds a non-empty string
if it holds anything. -/
def valsOK (st : LoopState) : Prop :=
  optNE st.add_number ∧ optNE st.add_number_suffix ∧ optNE st.street_name_pretype ∧
  optNE st.street_name ∧ optNE st.street_directional_pre ∧
  optNE st.street_directional_post ∧ optNE st.street_type ∧ optNE st.subaddr_part ∧
  optNE st.occ_type ∧ optNE st.state_name ∧ optNE st.zipc

theorem data_append (s t : String) : (s ++ t).data = s.data ++ t.data := by
  cases s; cases t; rfl

theorem string_eq_empty_iff (s : String) : s = "" ↔ s.data = [] := by
  constructor
  · intro h; rw [h]
  · intro h; cases s with
    | mk d => cases h; rfl

theorem isPref_append (n m : List Char) :
    ∀ h, isPref (n ++ m) h = true → isPref n h = true := by
  induction n with
  | nil => intro h _; rfl
  | cons a n' ih =>
    intro h hp
    cases h with
    | nil => simp [isPref] at hp
    | cons b t =>
      simp only [List.cons_append, isPref, Bool.and_eq_true] at hp ⊢
      exact ⟨hp.1, ih t hp.2⟩

theorem containsSub_append (n m : List Char) :
    ∀ h, containsSub (n ++ m) h = true → containsSub n h = true := by
  intro h
  induction h with
  | nil =>
    intro hp
    simp only [containsSub, List.isEmpty_iff, List.append_eq_nil] at hp
    simp [containsSub, hp.1]
  | cons c t ih =>
    intro hp
    simp only [containsSub, Bool.or_eq_true] at hp ⊢
    cases hp with
    | inl h1 => exact Or.inl (isPref_append n m _ h1)
    | inr h2 => exact Or.inr (ih h2)
theorem abbrev_fixpoint (n : Nat) :
    ∀ s r, street_to_abbreviated n s = some r → mapover r = r := by
  induction n with
  | zero => intro s r h; simp [street_to_abbreviated] at h
  | succ n ih =>
    intro s r h
    simp only [street_to_abbreviated] at h
    by_cases hc : mapover s = s
    · rw [if_pos hc] at h
      cases h
      rw [hc]
      exact hc
    · rw [if_neg hc] at h
      exact ih _ _ h

/-- C6.  Idempotence of the abbreviator: whenever the repeat-until-no-change
loop of street_to_abbreviated terminates on s with result r (some fuel n
bounds its iterations), running the loop again on r terminates in one
iteration with the same r, i.e. the second application changes nothing. -/
theorem claim_C6_abbreviator_idempotent (n : Nat) (s r : String)
    (h : street_to_abbreviated n s = some r) :
    ∀ m, street_to_abbreviated (m + 1) r = some r := by
  intro m
  have hfix := abbrev_fixpoint n s r h
  simp [street_to_abbreviated, hfix]

/-- Witness for C6 at a concrete input: the loop turns X AVENU into X AVE
within two iterations, and a second run returns X AVE unchanged. -/
theorem claim_C6_witness :
    street_to_abbreviated 2 "X AVENU" = some "X AVE" ∧
    street_to_abbreviated 1 "X AVE" = some "X AVE" :=
  ⟨by decide, claim_C6_abbreviator_idempotent 2 "X AVENU" "X AVE" (by decide) 0⟩

/-- C2, counterexample.  The claim says a table key is eligible for
replacement only when it occurs as a whole word (preceded by start-of-string
or a space AND followed by end-of-string or a space), and in particular that
a key occurring only as a substring inside a longer word is never replaced.
In X AVENS the key AVEN occurs only inside the longer word AVENS, yet the
pass replaces it (AVEN maps to AVE), because the code only requires a space
immediately before the key and puts no condition on what follows it. -/
theorem claim_C2_counterexample : mapover "X AVENS" = "X AVES" := by decide

/-- C2 as amended: a table key is eligible exactly when the uppercased
string contains a space immediately followed by the key; the character
after the key is unconstrained (so a space-preceded key inside a longer
word does match) and start-of-string does not count as a boundary.  The
trailing-space disjunct of the source condition is redundant. -/
theorem claim_C2_amended (k : String) (su : List Char) :
    keyMatches k su = containsSub (' ' :: k.data) su := by
  unfold keyMatches
  cases hc : containsSub (' ' :: k.data) su with
  | true => simp
  | false =>
    cases hx : containsSub ((' ' :: k.data) ++ [' ']) su with
    | true =>
      have := containsSub_append (' ' :: k.data) [' '] su hx
      rw [hc] at this
      cases this
    | false => simp [hx]

/-- C5, counterexample.  The claim says that in each pass only the first
occurrence of the selected key is replaced.  In A LANE SLANE the selected
longest key is LANE (mapped to LN); the single pass rewrites BOTH
occurrences, including the one inside SLANE, giving A LN SLN instead of
the claimed A LN SLANE. -/
theorem claim_C5_counterexample : mapover "A LANE SLANE" = "A LN SLN" := by decide

/-- C5 as amended: after the longest matching key is selected, the pass
replaces every leftmost non-overlapping occurrence of that key in the
uppercased string (including occurrences inside longer words), not only
the first one; replaceAllL is exactly that all-occurrence replacement. -/
theorem claim_C5_amended (s k : String)
    (hsel : selectLongest (upperL s.data) = k) (hk : k ≠ "") :
    mapover s = ⟨replaceAllL k.data (mappingVal k).data (upperL s.data)⟩ := by
  unfold mapover
  simp only [hsel, if_neg hk]

/-- Witness for C5 as amended: on FAKE AVENU EXTENSION the selected key is
EXTENSION and the pass output is the all-occurrence replacement. -/
theorem claim_C5_witness :
    selectLongest (upperL "FAKE AVENU EXTENSION".data) = "EXTENSION" ∧
    mapover "FAKE AVENU EXTENSION" =
      ⟨replaceAllL "EXTENSION".data (mappingVal "EXTENSION").data
        (upperL "FAKE AVENU EXTENSION".data)⟩ :=
  ⟨by decide, claim_C5_amended "FAKE AVENU EXTENSION" "EXTENSION" (by decide) (by decide)⟩

theorem step_addressNumber (ts : List (String × String)) (st : LoopState) (val : String) :
    stepTag ts st "AddressNumber" val = .ok { st with add_number := some val } := rfl

theorem step_addressNumberSuffix (ts : List (String × String)) (st : LoopState) (val : String) :
    stepTag ts st "AddressNumberSuffix" val = .ok { st with add_number_suffix := some val } := rfl

theorem step_preDir (ts : List (String × String)) (st : LoopState) (val : String) :
    stepTag ts st "StreetNamePreDirectional" val =
      (if hasKey ts "StreetNamePreDirectional" = true ∧ hasKey ts "StreetNamePostDirectional" = true then
        .ok { st with street_directional_pre := some (lookupTag ts "StreetNamePreDirectional"),
                      street_directional_post := some (lookupTag ts "StreetNamePostDirectional") }
      else if st.street_name = none then .ok { st with street_directional_pre := some val }
      else .ok { st with street_directional_post := some val }) := rfl

theorem step_postDir (ts : List (String × String)) (st : LoopState) (val : String) :
    stepTag ts st "StreetNamePostDirectional" val =
      (if hasKey ts "StreetNamePreDirectional" = true ∧ hasKey ts "StreetNamePostDirectional" = true then
        .ok { st with street_directional_pre := some (lookupTag ts "StreetNamePreDirectional"),
                      street_directional_post := some (lookupTag ts "StreetNamePostDirectional") }
      else if st.street_name = none then .ok { st with street_directional_pre := some val }
      else .ok { st with street_directional_post := some val }) := rfl

theorem step_preType (ts : List (String × String)) (st : LoopState) (val : String) :
    stepTag ts st "StreetNamePreType" val =
      .ok { st with
            street_name_pretype :=
              some (if hasKey ts "StreetNamePreModifier" = true then
                  lookupTag ts "StreetNamePreModifier" ++ " " ++ val
                else val) } := rfl

theorem step_preModifier (ts : List (String × String)) (st : LoopState) (val : String) :
    stepTag ts st "StreetNamePreModifier" val =
      (if hasKey ts "StreetNamePreType" = false then
        .error ("Unexpected Tag Scenario: " ++ "StreetNamePreType")
      else .ok st) := rfl

theorem step_streetName (ts : List (String × String)) (st : LoopState) (val : String) :
    stepTag ts st "StreetName" val = .ok { st with street_name := some val } := rfl

theorem step_postType (ts : List (String × String)) (st : LoopState) (val : String) :
    stepTag ts st "StreetNamePostType" val = .ok { st with street_type := some val } := rfl

theorem step_subType (ts : List (String × String)) (st : LoopState) (val : String) :
    stepTag ts st "SubaddressType" val =
      (if hasKey ts "SubaddressIdentifier" = true then
        .ok { st with subaddr_part := some (val ++ " " ++ lookupTag ts "SubaddressIdentifier") }
      else .error ("Unexpected Tag: " ++ "SubaddressType")) := by
  by_cases hk : hasKey ts "SubaddressIdentifier" = true
  · rw [if_pos hk]
    unfold stepTag
    rw [if_neg (by decide), if_neg (by decide), if_neg (by decide), if_neg (by decide),
        if_neg (by decide), if_neg (by decide), if_neg (by decide),
        if_pos (And.intro rfl hk)]
  · rw [if_neg hk]
    unfold stepTag
    rw [if_neg (by decide), if_neg (by decide), if_neg (by decide), if_neg (by decide),
        if_neg (by decide), if_neg (by decide), if_neg (by decide),
        if_neg (fun hc => hk hc.2), if_neg (by decide), if_neg (by decide),
        if_neg (by decide), if_neg (by decide), if_neg (by decide), if_neg (by decide),
        if_neg (by decide)]

theorem step_subId (ts : List (String × String)) (st : LoopState) (val : String) :
    stepTag ts st "SubaddressIdentifier" val = .ok st := by
  unfold stepTag
  rw [if_neg (by decide), if_neg (by decide), if_neg (by decide), if_neg (by decide),
      if_neg (by decide), if_neg (by decide), if_neg (by decide),
      if_neg (fun hc => by exact absurd hc.1 (by decide)), if_pos rfl]

theorem step_occType (ts : List (String × String)) (st : LoopState) (val : String) :
    stepTag ts st "OccupancyType" val =
      .ok { st with
            occ_type :=
              some (if hasKey ts "OccupancyIdentifier" = true then
                  val ++ " " ++ lookupTag ts "OccupancyIdentifier"
                else val) } := by
  unfold stepTag
  rw [if_neg (by decide), if_neg (by decide), if_neg (by decide), if_neg (by decide),
      if_neg (by decide), if_neg (by decide), if_neg (by decide),
      if_neg (fun hc => by exact absurd hc.1 (by decide)), if_neg (by decide), if_pos rfl]

theorem step_occId (ts : List (String × String)) (st : LoopState) (val : String) :
    stepTag ts st "OccupancyIdentifier" val = .ok st := by
  unfold stepTag
  rw [if_neg (by decide), if_neg (by decide), if_neg (by decide), if_neg (by decide),
      if_neg (by decide), if_neg (by decide), if_neg (by decide),
      if_neg (fun hc => by exact absurd hc.1 (by decide)), if_neg (by decide),
      if_neg (by decide), if_pos rfl]

theorem step_placeName (ts : List (String × String)) (st : LoopState) (val : String) :
    stepTag ts st "PlaceName" val =
      (match zipsSearch val.data, st.zipc with
       | some m, none =>
         .ok { st with zipc := some ⟨m⟩, city := some (pyStrip (pyReplace val ⟨m⟩ "")) }
       | _, _ => .ok { st with city := some val }) := by
  unfold stepTag
  rw [if_neg (by decide), if_neg (by decide), if_neg (by decide), if_neg (by decide),
      if_neg (by decide), if_neg (by decide), if_neg (by decide),
      if_neg (fun hc => by exact absurd hc.1 (by decide)), if_neg (by decide),
      if_neg (by decide), if_neg (by decide), if_pos rfl]

theorem step_stateName (ts : List (String × String)) (st : LoopState) (val : String) :
    stepTag ts st "StateName" val = .ok { st with state_name := some val } := by
  unfold stepTag
  rw [if_neg (by decide), if_neg (by decide), if_neg (by decide), if_neg (by decide),
      if_neg (by decide), if_neg (by decide), if_neg (by decide),
      if_neg (fun hc => by exact absurd hc.1 (by decide)), if_neg (by decide),
      if_neg (by decide), if_neg (by decide), if_neg (by decide), if_pos rfl]

theorem step_zipCode (ts : List (String × String)) (st : LoopState) (val : String) :
    stepTag ts st "ZipCode" val =
      .ok { st with
            zipc :=
              some (if hasKey ts "ZipPlus4" = true then
                  val ++ "-" ++ lookupTag ts "ZipPlus4"
                else val) } := by
  unfold stepTag
  rw [if_neg (by decide), if_neg (by decide), if_neg (by decide), if_neg (by decide),
      if_neg (by decide), if_neg (by decide), if_neg (by decide),
      if_neg (fun hc => by exact absurd hc.1 (by decide)), if_neg (by decide),
      if_neg (by decide), if_neg (by decide), if_neg (by decide), if_neg (by decide),
      if_pos rfl]

theorem step_zipPlus4 (ts : List (String × String)) (st : LoopState) (val : String) :
    stepTag ts st "ZipPlus4" val = .ok st := by
  unfold stepTag
  rw [if_neg (by decide), if_neg (by decide), if_neg (by decide), if_neg (by decide),
      if_neg (by decide), if_neg (by decide), if_neg (by decide),
      if_neg (fun hc => by exact absurd hc.1 (by decide)), if_neg (by decide),
      if_neg (by decide), if_neg (by decide), if_neg (by decide), if_neg (by decide),
      if_neg (by decide), if_pos rfl]

theorem step_unknown (ts : List (String × String)) (st : LoopState) (tag val : String)
    (h1 : tag ≠ "AddressNumber") (h2 : tag ≠ "AddressNumberSuffix")
    (h3 : tag ≠ "StreetNamePreDirectional") (h4 : tag ≠ "StreetNamePostDirectional")
    (h5 : tag ≠ "StreetNamePreType") (h6 : tag ≠ "StreetNamePreModifier")
    (h7 : tag ≠ "StreetName") (h8 : tag ≠ "StreetNamePostType")
    (h9 : tag ≠ "SubaddressType") (h10 : tag ≠ "SubaddressIdentifier")
    (h11 : tag ≠ "OccupancyType") (h12 : tag ≠ "OccupancyIdentifier")
    (h13 : tag ≠ "PlaceName") (h14 : tag ≠ "StateName") (h15 : tag ≠ "ZipCode")
    (h16 : tag ≠ "ZipPlus4") :
    stepTag ts st tag val = .error ("Unexpected Tag: " ++ tag) := by
  unfold stepTag
  rw [if_neg h1, if_neg h2, if_neg (not_or.mpr ⟨h3, h4⟩), if_neg h5, if_neg h6,
      if_neg h7, if_neg h8, if_neg (fun hc => h9 hc.1), if_neg h10, if_neg h11,
      if_neg h12, if_neg h13, if_neg h14, if_neg h15, if_neg h16]
theorem stepTag_shape (ts : List (String × String)) (st : LoopState) (tag val : String)
    (st' : LoopState) (h : stepTag ts st tag val = .ok st') :
    (tag = "AddressNumber" ∧ st' = { st with add_number := some val }) ∨
    (tag = "AddressNumberSuffix" ∧ st' = { st with add_number_suffix := some val }) ∨
    ((tag = "StreetNamePreDirectional" ∨ tag = "StreetNamePostDirectional") ∧
      ((hasKey ts "StreetNamePreDirectional" = true ∧
        hasKey ts "StreetNamePostDirectional" = true ∧
        st' = { st with
                street_directional_pre := some (lookupTag ts "StreetNamePreDirectional"),
                street_directional_post := some (lookupTag ts "StreetNamePostDirectional") }) ∨
       st' = { st with street_directional_pre := some val } ∨
       st' = { st with street_directional_post := some val })) ∨
    (tag = "StreetNamePreType" ∧
      st' = { st with
              street_name_pretype :=
                some (if hasKey ts "StreetNamePreModifier" = true then
                    lookupTag ts "StreetNamePreModifier" ++ " " ++ val
                  else val) }) ∨
    (tag = "StreetNamePreModifier" ∧ st' = st) ∨
    (tag = "StreetName" ∧ st' = { st with street_name := some val }) ∨
    (tag = "StreetNamePostType" ∧ st' = { st with street_type := some val }) ∨
    (tag = "SubaddressType" ∧ hasKey ts "SubaddressIdentifier" = true ∧
      st' = { st with subaddr_part := some (val ++ " " ++ lookupTag ts "SubaddressIdentifier") }) ∨
    (tag = "SubaddressIdentifier" ∧ st' = st) ∨
    (tag = "OccupancyType" ∧
      st' = { st with
              occ_type :=
                some (if hasKey ts "OccupancyIdentifier" = true then
                    val ++ " " ++ lookupTag ts "OccupancyIdentifier"
                  else val) }) ∨
    (tag = "OccupancyIdentifier" ∧ st' = st) ∨
    (tag = "PlaceName" ∧
      ((∃ m, zipsSearch val.data = some m ∧ st.zipc = none ∧
          st' = { st with zipc := some ⟨m⟩, city := some (pyStrip (pyReplace val ⟨m⟩ "")) }) ∨
       st' = { st with city := some val })) ∨
    (tag = "StateName" ∧ st' = { st with state_name := some val }) ∨
    (tag = "ZipCode" ∧
      st' = { st with
              zipc :=
                some (if hasKey ts "ZipPlus4" = true then
                    val ++ "-" ++ lookupTag ts "ZipPlus4"
                  else val) }) ∨
    (tag = "ZipPlus4" ∧ st' = st) := by
  by_cases h1 : tag = "AddressNumber"
  · subst h1; rw [step_addressNumber] at h
    exact Or.inl ⟨rfl, (Except.ok.inj h).symm⟩
  by_cases h2 : tag = "AddressNumberSuffix"
  · subst h2; rw [step_addressNumberSuffix] at h
    exact Or.inr (Or.inl ⟨rfl, (Except.ok.inj h).symm⟩)
  by_cases h3 : tag = "StreetNamePreDirectional"
  · subst h3; rw [step_preDir] at h
    refine Or.inr (Or.inr (Or.inl ⟨Or.inl rfl, ?_⟩))
    split_ifs at h with hb hn
    · exact Or.inl ⟨hb.1, hb.2, (Except.ok.inj h).symm⟩
    · exact Or.inr (Or.inl (Except.ok.inj h).symm)
    · exact Or.inr (Or.inr (Except.ok.inj h).symm)
  by_cases h4 : tag = "StreetNamePostDirectional"
  · subst h4; rw [step_postDir] at h
    refine Or.inr (Or.inr (Or.inl ⟨Or.inr rfl, ?_⟩))
    split_ifs at h with hb hn
    · exact Or.inl ⟨hb.1, hb.2, (Except.ok.inj h).symm⟩
    · exact Or.inr (Or.inl (Except.ok.inj h).symm)
    · exact Or.inr (Or.inr (Except.ok.inj h).symm)
  by_cases h5 : tag = "StreetNamePreType"
  · subst h5; rw [step_preType] at h
    exact Or.inr (Or.inr (Or.inr (Or.inl ⟨rfl, (Except.ok.inj h).symm⟩)))
  by_cases h6 : tag = "StreetNamePreModifier"
  · subst h6; rw [step_preModifier] at h
    split_ifs at h with hm
    exact Or.inr (Or.inr (Or.inr (Or.inr (Or.inl ⟨rfl, (Except.ok.inj h).symm⟩))))
  by_cases h7 : tag = "StreetName"
  · subst h7; rw [step_streetName] at h
    exact Or.inr (Or.inr (Or.inr (Or.inr (Or.inr (Or.inl ⟨rfl, (Except.ok.inj h).symm⟩)))))
  by_cases h8 : tag = "StreetNamePostType"
  · subst h8; rw [step_postType] at h
    exact Or.inr (Or.inr (Or.inr (Or.inr (Or.inr (Or.inr (Or.inl
      ⟨rfl, (Except.ok.inj h).symm⟩))))))
  by_cases h9 : tag = "SubaddressType"
  · subst h9; rw [step_subType] at h
    split_ifs at h with hk
    exact Or.inr (Or.inr (Or.inr (Or.inr (Or.inr (Or.inr (Or.inr (Or.inl
      ⟨rfl, hk, (Except.ok.inj h).symm⟩)))))))
  by_cases h10 : tag = "SubaddressIdentifier"
  · subst h10; rw [step_subId] at h
    exact Or.inr (Or.inr (Or.inr (Or.inr (Or.inr (Or.inr (Or.inr (Or.inr (Or.inl
      ⟨rfl, (Except.ok.inj h).symm⟩))))))))
  by_cases h11 : tag = "OccupancyType"
  · subst h11; rw [step_occType] at h
    exact Or.inr (Or.inr (Or.inr (Or.inr (Or.inr (Or.inr (Or.inr (Or.inr (Or.inr (Or.inl
      ⟨rfl, (Except.ok.inj h).symm⟩)))))))))
  by_cases h12 : tag = "OccupancyIdentifier"
  · subst h12; rw [step_occId] at h
    exact Or.inr (Or.inr (Or.inr (Or.inr (Or.inr (Or.inr (Or.inr (Or.inr (Or.inr (Or.inr
      (Or.inl ⟨rfl, (Except.ok.inj h).symm⟩))))))))))
  by_cases h13 : tag = "PlaceName"
  · subst h13; rw [step_placeName] at h
    refine Or.inr (Or.inr (Or.inr (Or.inr (Or.inr (Or.inr (Or.inr (Or.inr (Or.inr (Or.inr
      (Or.inr (Or.inl ⟨rfl, ?_⟩)))))))))))
    split at h
    · rename_i m hz hn
      exact Or.inl ⟨m, hz, hn, (Except.ok.inj h).symm⟩
    · exact Or.inr (Except.ok.inj h).symm
  by_cases h14 : tag = "StateName"
  · subst h14; rw [step_stateName] at h
    exact Or.inr (Or.inr (Or.inr (Or.inr (Or.inr (Or.inr (Or.inr (Or.inr (Or.inr (Or.inr
      (Or.inr (Or.inr (Or.inl ⟨rfl, (Except.ok.inj h).symm⟩))))))))))))
  by_cases h15 : tag = "ZipCode"
  · subst h15; rw [step_zipCode] at h
    exact Or.inr (Or.inr (Or.inr (Or.inr (Or.inr (Or.inr (Or.inr (Or.inr (Or.inr (Or.inr
      (Or.inr (Or.inr (Or.inr (Or.inl ⟨rfl, (Except.ok.inj h).symm⟩)))))))))))))
  by_cases h16 : tag = "ZipPlus4"
  · subst h16; rw [step_zipPlus4] at h
    exact Or.inr (Or.inr (Or.inr (Or.inr (Or.inr (Or.inr (Or.inr (Or.inr (Or.inr (Or.inr
      (Or.inr (Or.inr (Or.inr (Or.inr ⟨rfl, (Except.ok.inj h).symm⟩)))))))))))))
  · rw [step_unknown ts st tag val h1 h2 h3 h4 h5 h6 h7 h8 h9 h10 h11 h12 h13 h14 h15 h16] at h
    exact absurd h (by simp)
theorem stepTag_dir_preserved (ts : List (String × String)) (st : LoopState)
    (tag val : String) (st' : LoopState) (h : stepTag ts st tag val = .ok st')
    (h1 : tag ≠ "StreetNamePreDirectional") (h2 : tag ≠ "StreetNamePostDirectional") :
    st'.street_directional_pre = st.street_directional_pre ∧
    st'.street_directional_post = st.street_directional_post := by
  rcases stepTag_shape ts st tag val st' h with
    ⟨rfl, rfl⟩ | ⟨rfl, rfl⟩ | ⟨hd, ⟨hP, hQ, rfl⟩ | rfl | rfl⟩ | ⟨rfl, rfl⟩ | ⟨rfl, rfl⟩ |
    ⟨rfl, rfl⟩ | ⟨rfl, rfl⟩ | ⟨rfl, hk, rfl⟩ | ⟨rfl, rfl⟩ | ⟨rfl, rfl⟩ | ⟨rfl, rfl⟩ |
    ⟨rfl, ⟨m, hz, hn, rfl⟩ | rfl⟩ | ⟨rfl, rfl⟩ | ⟨rfl, rfl⟩ | ⟨rfl, rfl⟩ <;>
    first
      | exact ⟨rfl, rfl⟩
      | exact absurd (hd.resolve_left h1) h2

theorem stepTag_sn_preserved (ts : List (String × String)) (st : LoopState)
    (tag val : String) (st' : LoopState) (h : stepTag ts st tag val = .ok st')
    (h7 : tag ≠ "StreetName") : st'.street_name = st.street_name := by
  rcases stepTag_shape ts st tag val st' h with
    ⟨rfl, rfl⟩ | ⟨rfl, rfl⟩ | ⟨hd, ⟨hP, hQ, rfl⟩ | rfl | rfl⟩ | ⟨rfl, rfl⟩ | ⟨rfl, rfl⟩ |
    ⟨rfl, rfl⟩ | ⟨rfl, rfl⟩ | ⟨rfl, hk, rfl⟩ | ⟨rfl, rfl⟩ | ⟨rfl, rfl⟩ | ⟨rfl, rfl⟩ |
    ⟨rfl, ⟨m, hz, hn, rfl⟩ | rfl⟩ | ⟨rfl, rfl⟩ | ⟨rfl, rfl⟩ | ⟨rfl, rfl⟩ <;>
    first
      | exact absurd rfl h7
      | rfl

theorem stepTag_num_preserved (ts : List (String × String)) (st : LoopState)
    (tag val : String) (st' : LoopState) (h : stepTag ts st tag val = .ok st')
    (h1 : tag ≠ "AddressNumber") : st'.add_number = st.add_number := by
  rcases stepTag_shape ts st tag val st' h with
    ⟨rfl, rfl⟩ | ⟨rfl, rfl⟩ | ⟨hd, ⟨hP, hQ, rfl⟩ | rfl | rfl⟩ | ⟨rfl, rfl⟩ | ⟨rfl, rfl⟩ |
    ⟨rfl, rfl⟩ | ⟨rfl, rfl⟩ | ⟨rfl, hk, rfl⟩ | ⟨rfl, rfl⟩ | ⟨rfl, rfl⟩ | ⟨rfl, rfl⟩ |
    ⟨rfl, ⟨m, hz, hn, rfl⟩ | rfl⟩ | ⟨rfl, rfl⟩ | ⟨rfl, rfl⟩ | ⟨rfl, rfl⟩ <;>
    first
      | exact absurd rfl h1
      | rfl

theorem stepTag_sn_mono (ts : List (String × String)) (st : LoopState)
    (tag val : String) (st' : LoopState) (h : stepTag ts st tag val = .ok st')
    (hs : st.street_name.isSome = true) : st'.street_name.isSome = true := by
  rcases stepTag_shape ts st tag val st' h with
    ⟨rfl, rfl⟩ | ⟨rfl, rfl⟩ | ⟨hd, ⟨hP, hQ, rfl⟩ | rfl | rfl⟩ | ⟨rfl, rfl⟩ | ⟨rfl, rfl⟩ |
    ⟨rfl, rfl⟩ | ⟨rfl, rfl⟩ | ⟨rfl, hk, rfl⟩ | ⟨rfl, rfl⟩ | ⟨rfl, rfl⟩ | ⟨rfl, rfl⟩ |
    ⟨rfl, ⟨m, hz, hn, rfl⟩ | rfl⟩ | ⟨rfl, rfl⟩ | ⟨rfl, rfl⟩ | ⟨rfl, rfl⟩ <;>
    first
      | exact hs
      | rfl

theorem stepTag_num_mono (ts : List (String × String)) (st : LoopState)
    (tag val : String) (st' : LoopState) (h : stepTag ts st tag val = .ok st')
    (hs : st.add_number.isSome = true) : st'.add_number.isSome = true := by
  rcases stepTag_shape ts st tag val st' h with
    ⟨rfl, rfl⟩ | ⟨rfl, rfl⟩ | ⟨hd, ⟨hP, hQ, rfl⟩ | rfl | rfl⟩ | ⟨rfl, rfl⟩ | ⟨rfl, rfl⟩ |
    ⟨rfl, rfl⟩ | ⟨rfl, rfl⟩ | ⟨rfl, hk, rfl⟩ | ⟨rfl, rfl⟩ | ⟨rfl, rfl⟩ | ⟨rfl, rfl⟩ |
    ⟨rfl, ⟨m, hz, hn, rfl⟩ | rfl⟩ | ⟨rfl, rfl⟩ | ⟨rfl, rfl⟩ | ⟨rfl, rfl⟩ <;>
    first
      | exact hs
      | rfl

theorem runTags_append (ts : List (String × String)) (l1 l2 : List (String × String)) :
    ∀ st, runTags ts (l1 ++ l2) st =
      match runTags ts l1 st with
      | .ok st1 => runTags ts l2 st1
      | .error e => .error e := by
  induction l1 with
  | nil => intro st; rfl
  | cons tv l1' ih =>
    intro st
    obtain ⟨tag, val⟩ := tv
    show runTags ts ((tag, val) :: (l1' ++ l2)) st = _
    simp only [runTags]
    cases hst : stepTag ts st tag val with
    | ok st1 => exact ih st1
    | error e => rfl

theorem runTags_dir_preserved (ts : List (String × String)) :
    ∀ (l : List (String × String)) (st st' : LoopState),
      runTags ts l st = .ok st' →
      (∀ kv ∈ l, kv.1 ≠ "StreetNamePreDirectional" ∧ kv.1 ≠ "StreetNamePostDirectional") →
      st'.street_directional_pre = st.street_directional_pre ∧
      st'.street_directional_post = st.street_directional_post := by
  intro l
  induction l with
  | nil => intro st st' h _; cases h; exact ⟨rfl, rfl⟩
  | cons tv rest ih =>
    intro st st' h hl
    obtain ⟨tag, val⟩ := tv
    simp only [runTags] at h
    cases hst : stepTag ts st tag val with
    | ok st1 =>
      rw [hst] at h
      have h1 := hl (tag, val) (List.mem_cons_self _ _)
      have p1 := stepTag_dir_preserved ts st tag val st1 hst h1.1 h1.2
      have p2 := ih st1 st' h (fun kv hkv => hl kv (List.mem_cons_of_mem _ hkv))
      exact ⟨p2.1.trans p1.1, p2.2.trans p1.2⟩
    | error e => rw [hst] at h; cases h

theorem runTags_sn_preserved (ts : List (String × String)) :
    ∀ (l : List (String × String)) (st st' : LoopState),
      runTags ts l st = .ok st' →
      (∀ kv ∈ l, kv.1 ≠ "StreetName") →
      st'.street_name = st.street_name := by
  intro l
  induction l with
  | nil => intro st st' h _; cases h; rfl
  | cons tv rest ih =>
    intro st st' h hl
    obtain ⟨tag, val⟩ := tv
    simp only [runTags] at h
    cases hst : stepTag ts st tag val with
    | ok st1 =>
      rw [hst] at h
      have p1 := stepTag_sn_preserved ts st tag val st1 hst (hl (tag, val) (List.mem_cons_self _ _))
      have p2 := ih st1 st' h (fun kv hkv => hl kv (List.mem_cons_of_mem _ hkv))
      exact p2.trans p1
    | error e => rw [hst] at h; cases h

theorem runTags_num_preserved (ts : List (String × String)) :
    ∀ (l : List (String × String)) (st st' : LoopState),
      runTags ts l st = .ok st' →
      (∀ kv ∈ l, kv.1 ≠ "AddressNumber") →
      st'.add_number = st.add_number := by
  intro l
  induction l with
  | nil => intro st st' h _; cases h; rfl
  | cons tv rest ih =>
    intro st st' h hl
    obtain ⟨tag, val⟩ := tv
    simp only [runTags] at h
    cases hst : stepTag ts st tag val with
    | ok st1 =>
      rw [hst] at h
      have p1 := stepTag_num_preserved ts st tag val st1 hst (hl (tag, val) (List.mem_cons_self _ _))
      have p2 := ih st1 st' h (fun kv hkv => hl kv (List.mem_cons_of_mem _ hkv))
      exact p2.trans p1
    | error e => rw [hst] at h; cases h

theorem runTags_sn_mono (ts : List (String × String)) :
    ∀ (l : List (String × String)) (st st' : LoopState),
      runTags ts l st = .ok st' →
      st.street_name.isSome = true → st'.street_name.isSome = true := by
  intro l
  induction l with
  | nil => intro st st' h hs; cases h; exact hs
  | cons tv rest ih =>
    intro st st' h hs
    obtain ⟨tag, val⟩ := tv
    simp only [runTags] at h
    cases hst : stepTag ts st tag val with
    | ok st1 =>
      rw [hst] at h
      exact ih st1 st' h (stepTag_sn_mono ts st tag val st1 hst hs)
    | error e => rw [hst] at h; cases h

theorem runTags_num_mono (ts : List (String × String)) :
    ∀ (l : List (String × String)) (st st' : LoopState),
      runTags ts l st = .ok st' →
      st.add_number.isSome = true → st'.add_number.isSome = true := by
  intro l
  induction l with
  | nil => intro st st' h hs; cases h; exact hs
  | cons tv rest ih =>
    intro st st' h hs
    obtain ⟨tag, val⟩ := tv
    simp only [runTags] at h
    cases hst : stepTag ts st tag val with
    | ok st1 =>
      rw [hst] at h
      exact ih st1 st' h (stepTag_num_mono ts st tag val st1 hst hs)
    | error e => rw [hst] at h; cases h

theorem runTags_sn_set (ts : List (String × String)) :
    ∀ (l : List (String × String)) (st st' : LoopState),
      runTags ts l st = .ok st' →
      hasKey l "StreetName" = true → st'.street_name.isSome = true := by
  intro l
  induction l with
  | nil => intro st st' _ hk; cases hk
  | cons tv rest ih =>
    intro st st' h hk
    obtain ⟨tag, val⟩ := tv
    simp only [runTags] at h
    cases hst : stepTag ts st tag val with
    | ok st1 =>
      rw [hst] at h
      by_cases htag : tag = "StreetName"
      · subst htag
        rw [step_streetName] at hst
        have : st1 = { st with street_name := some val } := (Except.ok.inj hst).symm
        subst this
        exact runTags_sn_mono ts rest _ st' h rfl
      · refine ih st1 st' h ?_
        simp only [hasKey, List.any_cons, Bool.or_eq_true] at hk
        rcases hk with hk | hk
        · exact absurd (by simpa using hk) htag
        · exact hk
    | error e => rw [hst] at h; cases h

theorem runTags_num_set (ts : List (String × String)) :
    ∀ (l : List (String × String)) (st st' : LoopState),
      runTags ts l st = .ok st' →
      hasKey l "AddressNumber" = true → st'.add_number.isSome = true := by
  intro l
  induction l with
  | nil => intro st st' _ hk; cases hk
  | cons tv rest ih =>
    intro st st' h hk
    obtain ⟨tag, val⟩ := tv
    simp only [runTags] at h
    cases hst : stepTag ts st tag val with
    | ok st1 =>
      rw [hst] at h
      by_cases htag : tag = "AddressNumber"
      · subst htag
        rw [step_addressNumber] at hst
        have : st1 = { st with add_number := some val } := (Except.ok.inj hst).symm
        subst this
        exact runTags_num_mono ts rest _ st' h rfl
      · refine ih st1 st' h ?_
        simp only [hasKey, List.any_cons, Bool.or_eq_true] at hk
        rcases hk with hk | hk
        · exact absurd (by simpa using hk) htag
        · exact hk
    | error e => rw [hst] at h; cases h
theorem hasKey_false_forall (l : List (String × String)) (k : String)
    (h : hasKey l k = false) : ∀ kv ∈ l, kv.1 ≠ k := by
  intro kv hm he
  have : l.any (fun kv => kv.1 == k) = true := by
    refine List.any_eq_true.mpr ⟨kv, hm, ?_⟩
    simp [he]
  rw [hasKey] at h
  rw [h] at this
  cases this

theorem hasKey_true_exists (l : List (String × String)) (k : String)
    (h : hasKey l k = true) : ∃ kv ∈ l, kv.1 = k := by
  rw [hasKey] at h
  obtain ⟨kv, hm, he⟩ := List.any_eq_true.mp h
  exact ⟨kv, hm, by simpa using he⟩

theorem stepTag_inv (ts : List (String × String)) (st : LoopState) (tag val : String)
    (st' : LoopState)
    (hP : hasKey ts "StreetNamePreDirectional" = true)
    (hQ : hasKey ts "StreetNamePostDirectional" = true)
    (h : stepTag ts st tag val = .ok st') :
    ((st.street_directional_pre = some (lookupTag ts "StreetNamePreDirectional") ∧
      st.street_directional_post = some (lookupTag ts "StreetNamePostDirectional")) →
     (st'.street_directional_pre = some (lookupTag ts "StreetNamePreDirectional") ∧
      st'.street_directional_post = some (lookupTag ts "StreetNamePostDirectional"))) ∧
    ((tag = "StreetNamePreDirectional" ∨ tag = "StreetNamePostDirectional") →
     (st'.street_directional_pre = some (lookupTag ts "StreetNamePreDirectional") ∧
      st'.street_directional_post = some (lookupTag ts "StreetNamePostDirectional"))) := by
  by_cases h3 : tag = "StreetNamePreDirectional"
  · subst h3
    rw [step_preDir, if_pos ⟨hP, hQ⟩] at h
    have he := (Except.ok.inj h).symm
    subst he
    exact ⟨fun _ => ⟨rfl, rfl⟩, fun _ => ⟨rfl, rfl⟩⟩
  by_cases h4 : tag = "StreetNamePostDirectional"
  · subst h4
    rw [step_postDir, if_pos ⟨hP, hQ⟩] at h
    have he := (Except.ok.inj h).symm
    subst he
    exact ⟨fun _ => ⟨rfl, rfl⟩, fun _ => ⟨rfl, rfl⟩⟩
  · have p := stepTag_dir_preserved ts st tag val st' h h3 h4
    exact ⟨fun hinv => ⟨p.1.trans hinv.1, p.2.trans hinv.2⟩,
           fun hd => absurd (hd.resolve_left h3) h4⟩

theorem runTags_inv (ts : List (String × String))
    (hP : hasKey ts "StreetNamePreDirectional" = true)
    (hQ : hasKey ts "StreetNamePostDirectional" = true) :
    ∀ (l : List (String × String)) (st st' : LoopState),
      runTags ts l st = .ok st' →
      ((st.street_directional_pre = some (lookupTag ts "StreetNamePreDirectional") ∧
        st.street_directional_post = some (lookupTag ts "StreetNamePostDirectional")) ∨
        ∃ kv ∈ l, kv.1 = "StreetNamePreDirectional" ∨ kv.1 = "StreetNamePostDirectional") →
      (st'.street_directional_pre = some (lookupTag ts "StreetNamePreDirectional") ∧
       st'.street_directional_post = some (lookupTag ts "StreetNamePostDirectional")) := by
  intro l
  induction l with
  | nil =>
    intro st st' h hd
    cases h
    rcases hd with hd | ⟨kv, hm, _⟩
    · exact hd
    · cases hm
  | cons tv rest ih =>
    intro st st' h hd
    obtain ⟨tag, val⟩ := tv
    simp only [runTags] at h
    cases hst : stepTag ts st tag val with
    | ok st1 =>
      rw [hst] at h
      have inv := stepTag_inv ts st tag val st1 hP hQ hst
      rcases hd with hd | ⟨kv, hm, hkv⟩
      · exact ih st1 st' h (Or.inl (inv.1 hd))
      · rcases List.mem_cons.mp hm with rfl | hm'
        · exact ih st1 st' h (Or.inl (inv.2 hkv))
        · exact ih st1 st' h (Or.inr ⟨kv, hm', hkv⟩)
    | error e => rw [hst] at h; cases h

/-- C1.  Directional disambiguation.  Part one: when both directional tags
are present, the loop leaves the pre slot holding the value tagged
pre-directional and the post slot holding the value tagged
post-directional, whatever the iteration order.  Part two: when exactly one
directional tag is present (of either name), its value lands in the pre
slot exactly when the pair is iterated before any StreetName pair (the
street-name slot still unset), and in the post slot exactly when some
StreetName pair precedes it; the other slot stays empty.  In the assembled
street (claim C4) the pre slot is prefixed before the abbreviated street
name and the post slot suffixed after it, so slot placement is output
placement. -/
theorem claim_C1_directional_disambiguation (ts : List (String × String)) (st : LoopState)
    (hnd : (ts.map Prod.fst).Nodup) (hok : tagLoop ts = .ok st) :
    (hasKey ts "StreetNamePreDirectional" = true →
     hasKey ts "StreetNamePostDirectional" = true →
      st.street_directional_pre = some (lookupTag ts "StreetNamePreDirectional") ∧
      st.street_directional_post = some (lookupTag ts "StreetNamePostDirectional")) ∧
    (∀ dtag v l1 l2,
      (dtag = "StreetNamePreDirectional" ∨ dtag = "StreetNamePostDirectional") →
      ts = l1 ++ (dtag, v) :: l2 →
      hasKey ts (otherDirectional dtag) = false →
      ((hasKey l1 "StreetName" = false →
          st.street_directional_pre = some v ∧ st.street_directional_post = none) ∧
       (hasKey l1 "StreetName" = true →
          st.street_directional_post = some v ∧ st.street_directional_pre = none))) := by
  constructor
  · intro hP hQ
    obtain ⟨kv, hm, hkv⟩ := hasKey_true_exists ts "StreetNamePreDirectional" hP
    exact runTags_inv ts hP hQ ts initState st hok (Or.inr ⟨kv, hm, Or.inl hkv⟩)
  · intro dtag v l1 l2 hd hts hother
    -- the two directional tag names, concretely
    have hdir_names : ∀ kv ∈ l1 ++ l2,
        kv.1 ≠ "StreetNamePreDirectional" ∧ kv.1 ≠ "StreetNamePostDirectional" := by
      intro kv hm
      have hkvts : kv ∈ ts := by
        rw [hts]
        rcases List.mem_append.mp hm with hm1 | hm2
        · exact List.mem_append.mpr (Or.inl hm1)
        · exact List.mem_append.mpr (Or.inr (List.mem_cons_of_mem _ hm2))
      have hne_other := hasKey_false_forall ts (otherDirectional dtag) hother kv hkvts
      have hne_dtag : kv.1 ≠ dtag := by
        intro he
        have hnd' : ¬ dtag ∈ (l1 ++ l2).map Prod.fst := by
          rw [hts, List.map_append, List.map_cons] at hnd
          have hnd2 := List.nodup_middle.mp hnd
          have := (List.nodup_cons.mp hnd2).1
          rw [List.map_append]
          exact this
        exact hnd' (by
          rw [← he]
          exact List.mem_map.mpr ⟨kv, hm, rfl⟩)
      rcases hd with rfl | rfl
      · exact ⟨hne_dtag, by simpa [otherDirectional] using hne_other⟩
      · refine ⟨by simpa [otherDirectional] using hne_other, hne_dtag⟩
    subst hts
    unfold tagLoop at hok
    rw [runTags_append] at hok
    cases hr1 : runTags (l1 ++ (dtag, v) :: l2) l1 initState with
    | error e => rw [hr1] at hok; cases hok
    | ok st1 =>
      rw [hr1] at hok
      simp only [runTags] at hok
      cases hstep : stepTag (l1 ++ (dtag, v) :: l2) st1 dtag v with
      | error e => rw [hstep] at hok; cases hok
      | ok st2 =>
        rw [hstep] at hok
        -- l1 and l2 contain no directional pair
        have hl1dir : ∀ kv ∈ l1,
            kv.1 ≠ "StreetNamePreDirectional" ∧ kv.1 ≠ "StreetNamePostDirectional" :=
          fun kv hm => hdir_names kv (List.mem_append.mpr (Or.inl hm))
        have hl2dir : ∀ kv ∈ l2,
            kv.1 ≠ "StreetNamePreDirectional" ∧ kv.1 ≠ "StreetNamePostDirectional" :=
          fun kv hm => hdir_names kv (List.mem_append.mpr (Or.inr hm))
        have hdir1 := runTags_dir_preserved _ l1 initState st1 hr1 hl1dir
        have hdir2 := runTags_dir_preserved _ l2 st2 st hok hl2dir
        -- the both-present test of the directional branch is false
        have hboth :
            ¬ (hasKey (l1 ++ (dtag, v) :: l2) "StreetNamePreDirectional" = true ∧
               hasKey (l1 ++ (dtag, v) :: l2) "StreetNamePostDirectional" = true) := by
          intro hc
          rcases hd with rfl | rfl
          · rw [show otherDirectional "StreetNamePreDirectional" = "StreetNamePostDirectional"
                from rfl] at hother
            rw [hother] at hc
            cases hc.2
          · rw [show otherDirectional "StreetNamePostDirectional" = "StreetNamePreDirectional"
                from rfl] at hother
            rw [hother] at hc
            cases hc.1
        have hstep' :
            (if st1.street_name = none then
              (Except.ok { st1 with street_directional_pre := some v } : Except String LoopState)
            else .ok { st1 with street_directional_post := some v }) = .ok st2 := by
          rcases hd with rfl | rfl
          · rw [step_preDir, if_neg hboth] at hstep; exact hstep
          · rw [step_postDir, if_neg hboth] at hstep; exact hstep
        constructor
        · intro hsn1
          have hl1sn : ∀ kv ∈ l1, kv.1 ≠ "StreetName" :=
            hasKey_false_forall l1 "StreetName" hsn1
          have hsn_none : st1.street_name = none := by
            rw [runTags_sn_preserved _ l1 initState st1 hr1 hl1sn]
            rfl
          rw [if_pos hsn_none] at hstep'
          have he := (Except.ok.inj hstep').symm
          subst he
          refine ⟨hdir2.1.trans rfl, hdir2.2.trans ?_⟩
          exact hdir1.2.trans rfl
        · intro hsn1
          have hsome := runTags_sn_set _ l1 initState st1 hr1 hsn1
          have hsn_ne : ¬ st1.street_name = none := by
            intro hc; rw [hc] at hsome; cases hsome
          rw [if_neg hsn_ne] at hstep'
          have he := (Except.ok.inj hstep').symm
          subst he
          refine ⟨hdir2.2.trans rfl, hdir2.1.trans ?_⟩
          exact hdir1.1.trans rfl
/-- Witness for C1 at a concrete input: a single directional pair tagged
PostDirectional but iterated before the StreetName pair lands in the pre
slot, overriding its own tag identity. -/
theorem claim_C1_witness :
    (([("StreetNamePostDirectional", "N"), ("StreetName", "MAIN"),
       ("AddressNumber", "1")] : List (String × String)).map Prod.fst).Nodup ∧
    tagLoop [("StreetNamePostDirectional", "N"), ("StreetName", "MAIN"),
             ("AddressNumber", "1")] =
      .ok ⟨some "1", none, none, some "MAIN", some "N", none, none, none, none,
           none, none, none⟩ ∧
    hasKey [("StreetNamePostDirectional", "N"), ("StreetName", "MAIN"),
            ("AddressNumber", "1")] (otherDirectional "StreetNamePostDirectional") = false ∧
    ((⟨some "1", none, none, some "MAIN", some "N", none, none, none, none,
       none, none, none⟩ : LoopState).street_directional_pre = some "N" ∧
     (⟨some "1", none, none, some "MAIN", some "N", none, none, none, none,
       none, none, none⟩ : LoopState).street_directional_post = none) :=
  ⟨by decide, by decide, by decide,
   ((claim_C1_directional_disambiguation
      [("StreetNamePostDirectional", "N"), ("StreetName", "MAIN"), ("AddressNumber", "1")]
      ⟨some "1", none, none, some "MAIN", some "N", none, none, none, none,
       none, none, none⟩
      (by decide) (by decide)).2
      "StreetNamePostDirectional" "N" []
      [("StreetName", "MAIN"), ("AddressNumber", "1")]
      (Or.inr rfl) rfl (by decide)).1 (by decide)⟩
theorem tagLoop_num_none (ts : List (String × String)) (st : LoopState)
    (hok : tagLoop ts = .ok st) (hk : hasKey ts "AddressNumber" = false) :
    st.add_number = none := by
  have h := runTags_num_preserved ts ts initState st hok
    (fun kv hm => hasKey_false_forall ts "AddressNumber" hk kv hm)
  rw [h]; rfl

theorem tagLoop_sn_none (ts : List (String × String)) (st : LoopState)
    (hok : tagLoop ts = .ok st) (hk : hasKey ts "StreetName" = false) :
    st.street_name = none := by
  have h := runTags_sn_preserved ts ts initState st hok
    (fun kv hm => hasKey_false_forall ts "StreetName" hk kv hm)
  rw [h]; rfl

/-- C8.  Missing-field validation, for a tag mapping of type Street Address
whose tag loop raises nothing: with no AddressNumber tag the result is the
missing-street-number failure (no number is fabricated); with an
AddressNumber tag but no StreetName tag it is the missing-street-name
failure; with both present but city, state or zip still unset after the
pass, whatever the function returns is the missing city/state/zip failure;
and when a non-empty AddressNumberSuffix was recorded, the number field of
a successfully built Address is the tagged number, a space, and the suffix
(uppercased).  The three reasons are checked in this order, as in the
specification text. -/
theorem claim_C8_missing_field_validation (fuel : Nat) (ts : List (String × String))
    (st : LoopState) (hok : tagLoop ts = .ok st) :
    (hasKey ts "AddressNumber" = false →
       normalize_address fuel ts "Street Address" = some (.error "Missing street number")) ∧
    (hasKey ts "AddressNumber" = true → hasKey ts "StreetName" = false →
       normalize_address fuel ts "Street Address" = some (.error "Missing street name")) ∧
    (st.add_number.isSome = true → st.street_name.isSome = true →
       (st.city = none ∨ st.state_name = none ∨ st.zipc = none) →
       ∀ r, normalize_address fuel ts "Street Address" = some r →
         r = .error "Missing city, state, or zip") ∧
    (∀ num sfx a, st.add_number = some num → st.add_number_suffix = some sfx → sfx ≠ "" →
       normalize_address fuel ts "Street Address" = some (.ok a) →
       a.number = pyUpper (num ++ " " ++ sfx)) := by
  have hna : normalize_address fuel ts "Street Address" = postAssemble fuel st := by
    unfold normalize_address
    rw [if_neg (by simp), hok]
  refine ⟨?_, ?_, ?_, ?_⟩
  · intro hk
    rw [hna]
    unfold postAssemble
    rw [tagLoop_num_none ts st hok hk]
  · intro hkn hks
    rw [hna]
    obtain ⟨num0, hnum⟩ := Option.isSome_iff_exists.mp (runTags_num_set ts ts initState st hok hkn)
    unfold postAssemble
    rw [hnum, tagLoop_sn_none ts st hok hks]
  · intro hn hs hcsz r hres
    rw [hna] at hres
    obtain ⟨num0, hnum⟩ := Option.isSome_iff_exists.mp hn
    obtain ⟨name0, hname⟩ := Option.isSome_iff_exists.mp hs
    unfold postAssemble at hres
    simp only [hnum, hname] at hres
    split at hres
    · cases hres
    · rw [if_pos hcsz] at hres
      exact (Option.some.inj hres).symm
  · intro num sfx a hnum hsfx hne hres
    rw [hna] at hres
    unfold postAssemble at hres
    have hbe : (sfx == "") = false := beq_eq_false_iff_ne.mpr hne
    simp only [hnum, hsfx, truthy, hbe, Bool.not_false, Option.getD_some, reduceIte] at hres
    split at hres
    · cases hres
    · split at hres
      · cases hres
      · split at hres
        · cases hres
        · have := Option.some.inj hres
          have ha := Except.ok.inj this
          rw [← ha]

/-- Witness for C8 at a concrete input: with number 19161 and suffix 1/2
the returned Address carries number 19161 1/2. -/
theorem claim_C8_witness :
    tagLoop [("AddressNumber", "19161"), ("AddressNumberSuffix", "1/2"),
             ("StreetName", "MAIN"), ("PlaceName", "TOWN"), ("StateName", "CA"),
             ("ZipCode", "95321")] =
      .ok ⟨some "19161", some "1/2", none, some "MAIN", none, none, none, none,
           none, some "TOWN", some "CA", some "95321"⟩ ∧
    normalize_address 2 [("AddressNumber", "19161"), ("AddressNumberSuffix", "1/2"),
             ("StreetName", "MAIN"), ("PlaceName", "TOWN"), ("StateName", "CA"),
             ("ZipCode", "95321")] "Street Address" =
      some (.ok ⟨"19161 1/2", "MAIN", "TOWN", "CA", "95321"⟩) ∧
    "1/2" ≠ "" ∧
    (⟨"19161 1/2", "MAIN", "TOWN", "CA", "95321"⟩ : Address).number =
      pyUpper ("19161" ++ " " ++ "1/2") :=
  ⟨by decide, by decide, by decide,
   (claim_C8_missing_field_validation 2
      [("AddressNumber", "19161"), ("AddressNumberSuffix", "1/2"),
       ("StreetName", "MAIN"), ("PlaceName", "TOWN"), ("StateName", "CA"),
       ("ZipCode", "95321")]
      ⟨some "19161", some "1/2", none, some "MAIN", none, none, none, none,
       none, some "TOWN", some "CA", some "95321"⟩
      (by decide)).2.2.2 "19161" "1/2"
      ⟨"19161 1/2", "MAIN", "TOWN", "CA", "95321"⟩
      (by decide) (by decide) (by decide) (by decide)⟩
theorem runTags_subtype_fails (ts : List (String × String))
    (hk : hasKey ts "SubaddressIdentifier" = false) :
    ∀ (l : List (String × String)) (st st' : LoopState),
      runTags ts l st = .ok st' → ∀ kv ∈ l, kv.1 ≠ "SubaddressType" := by
  intro l
  induction l with
  | nil => intro st st' _ kv hm; cases hm
  | cons tv rest ih =>
    intro st st' h kv hm
    obtain ⟨tag, val⟩ := tv
    simp only [runTags] at h
    cases hst : stepTag ts st tag val with
    | ok st1 =>
      rw [hst] at h
      rcases List.mem_cons.mp hm with rfl | hm'
      · intro he
        have he' : tag = "SubaddressType" := he
        subst he'
        rw [step_subType, if_neg (fun hc => by rw [hk] at hc; cases hc)] at hst
        cases hst
      · exact ih st1 st' h kv hm'
    | error e => rw [hst] at h; cases h

/-- C10 as amended.  Sub-address tag asymmetry: a tag mapping containing a
SubaddressType tag but no SubaddressIdentifier tag always makes
normalize_address raise an unparsable-address failure (part one); the
failure reason is the unexpected-tag reason naming SubaddressType whenever
the pairs iterated before the SubaddressType pair raise nothing themselves
(part two) - an earlier tag can raise a different reason first, which is
what the counterexample shows.  Part three: a SubaddressIdentifier pair is
dispatched to a no-op, leaving the state unchanged and raising nothing, so
by itself it never causes a failure. -/
theorem claim_C10_subaddress_asymmetry :
    (∀ (fuel : Nat) (ts : List (String × String)) (add_type : String),
       hasKey ts "SubaddressType" = true →
       hasKey ts "SubaddressIdentifier" = false →
       ∃ e, normalize_address fuel ts add_type = some (.error e)) ∧
    (∀ (fuel : Nat) (v : String) (l1 l2 : List (String × String)) (st1 : LoopState),
       hasKey (l1 ++ ("SubaddressType", v) :: l2) "SubaddressIdentifier" = false →
       runTags (l1 ++ ("SubaddressType", v) :: l2) l1 initState = .ok st1 →
       normalize_address fuel (l1 ++ ("SubaddressType", v) :: l2) "Street Address" =
         some (.error ("Unexpected Tag: " ++ "SubaddressType"))) ∧
    (∀ (ts : List (String × String)) (st : LoopState) (v : String),
       stepTag ts st "SubaddressIdentifier" v = .ok st) := by
  refine ⟨?_, ?_, ?_⟩
  · intro fuel ts add_type hst hsub
    by_cases hty : add_type = "Street Address"
    · subst hty
      unfold normalize_address
      rw [if_neg (by simp)]
      cases htl : tagLoop ts with
      | error e => exact ⟨e, rfl⟩
      | ok st =>
        obtain ⟨kv, hm, hkv⟩ := hasKey_true_exists ts "SubaddressType" hst
        exact absurd hkv (runTags_subtype_fails ts hsub ts initState st htl kv hm)
    · unfold normalize_address
      rw [if_pos hty]
      exact ⟨_, rfl⟩
  · intro fuel v l1 l2 st1 hk hr1
    have hsplit : tagLoop (l1 ++ ("SubaddressType", v) :: l2) =
        runTags (l1 ++ ("SubaddressType", v) :: l2) (("SubaddressType", v) :: l2) st1 := by
      unfold tagLoop
      rw [runTags_append, hr1]
    unfold normalize_address
    rw [if_neg (by simp), hsplit]
    simp only [runTags]
    rw [step_subType, if_neg (fun hc => by rw [hk] at hc; cases hc)]
  · intro ts st v
    exact step_subId ts st v

/-- C10, counterexample to the claim as stated: in a mapping where an
unrecognized tag (Recipient) is iterated before the SubaddressType tag,
the raised reason names Recipient, not SubaddressType. -/
theorem claim_C10_counterexample :
    normalize_address 1 [("Recipient", "X"), ("SubaddressType", "APT")] "Street Address" =
      some (.error ("Unexpected Tag: " ++ "Recipient")) := by decide

/-- Witness for C10 as amended: with a well-formed pair before it, the
SubaddressType tag without an identifier raises the unexpected-tag reason
naming SubaddressType. -/
theorem claim_C10_witness :
    hasKey ([("AddressNumber", "1")] ++ ("SubaddressType", "APT") :: [])
      "SubaddressIdentifier" = false ∧
    runTags ([("AddressNumber", "1")] ++ ("SubaddressType", "APT") :: [])
      [("AddressNumber", "1")] initState =
      .ok ⟨some "1", none, none, none, none, none, none, none, none, none, none, none⟩ ∧
    normalize_address 1 ([("AddressNumber", "1")] ++ ("SubaddressType", "APT") :: [])
      "Street Address" = some (.error ("Unexpected Tag: " ++ "SubaddressType")) :=
  ⟨by decide, by decide,
   claim_C10_subaddress_asymmetry.2.1 1 "APT" [("AddressNumber", "1")] []
     ⟨some "1", none, none, none, none, none, none, none, none, none, none, none⟩
     (by decide) (by decide)⟩
/-- C9 as amended.  Embedded-zip extraction at the moment the PlaceName
tag is processed: when no zip has been recorded yet and the place fragment
contains a match of the zip pattern, the matched text is recorded as the
zip slot at that point (a later ZipCode tag can still overwrite it), and
the city slot becomes the fragment with every occurrence of the matched
text removed and only leading and trailing whitespace stripped (interior
whitespace around a removed occurrence is kept). -/
theorem claim_C9_embedded_zip (ts : List (String × String)) (st : LoopState) (v : String)
    (m : List Char) (hz : st.zipc = none) (hm : zipsSearch v.data = some m) :
    stepTag ts st "PlaceName" v =
      .ok { st with zipc := some ⟨m⟩, city := some (pyStrip (pyReplace v ⟨m⟩ "")) } := by
  rw [step_placeName, hm, hz]

/-- C4.  Street assembly order: on every successful reconciliation the
street field is the uppercasing of: the abbreviation pass applied to the
street name prefixed by the pre-type (which the loop already joined with
the pre-modifier, part two) and suffixed by the post-type, then the
pre-directional prefixed, the post-directional, the sub-address composite
and the occupancy composite suffixed, in that order - so directional,
sub-address and occupancy text never pass through the abbreviator. -/
theorem claim_C4_assembly_order (fuel : Nat) (ts : List (String × String)) (st : LoopState)
    (a : Address) (name : String)
    (htl : tagLoop ts = .ok st) (hsn : st.street_name = some name)
    (hres : normalize_address fuel ts "Street Address" = some (.ok a)) :
    (∃ r, street_to_abbreviated fuel (specCore st name) = some r ∧
      a.street = pyUpper (specFinish st r)) ∧
    (∀ (st0 : LoopState) (v : String),
      stepTag ts st0 "StreetNamePreType" v =
        .ok { st0 with
              street_name_pretype :=
                some (if hasKey ts "StreetNamePreModifier" = true then
                    lookupTag ts "StreetNamePreModifier" ++ " " ++ v
                  else v) }) := by
  refine ⟨?_, fun st0 v => step_preType ts st0 v⟩
  unfold normalize_address at hres
  rw [if_neg (by simp), htl] at hres
  have hres' : postAssemble fuel st = some (.ok a) := hres
  clear hres
  cases hnum : st.add_number with
  | none =>
    unfold postAssemble at hres'
    rw [hnum] at hres'
    simp at hres' 
  | some num0 =>
    have hpost : postAssemble fuel st =
        match street_to_abbreviated fuel (specCore st name) with
        | none => none
        | some r =>
          if st.city = none ∨ st.state_name = none ∨ st.zipc = none then
            some (.error "Missing city, state, or zip")
          else
            some (.ok ⟨pyUpper (if truthy st.add_number_suffix = true then
                          num0 ++ " " ++ st.add_number_suffix.getD ""
                        else num0),
                       pyUpper (specFinish st r), pyUpper (st.city.getD ""),
                       pyUpper (st.state_name.getD ""), st.zipc.getD ""⟩) := by
      unfold postAssemble
      rw [hnum, hsn]
      rfl
    cases habb : street_to_abbreviated fuel (specCore st name) with
    | none =>
      rw [habb] at hpost
      have h0 : postAssemble fuel st = none := hpost
      rw [h0] at hres'
      cases hres'
    | some r =>
      rw [habb] at hpost
      have hpost2 : postAssemble fuel st =
          (if st.city = none ∨ st.state_name = none ∨ st.zipc = none then
            some (Except.error "Missing city, state, or zip")
          else
            some (Except.ok ⟨pyUpper (if truthy st.add_number_suffix = true then
                      num0 ++ " " ++ st.add_number_suffix.getD ""
                    else num0),
                   pyUpper (specFinish st r), pyUpper (st.city.getD ""),
                   pyUpper (st.state_name.getD ""), st.zipc.getD ""⟩)) := hpost
      rw [hpost2] at hres'
      by_cases hcsz : st.city = none ∨ st.state_name = none ∨ st.zipc = none
      · rw [if_pos hcsz] at hres'
        simp at hres'
      · rw [if_neg hcsz] at hres'
        have h1 := Except.ok.inj (Option.some.inj hres')
        exact ⟨r, rfl, by rw [← h1]⟩

/-- C9, counterexample to the claim as stated.  First input: PlaceName
"A 12345 B" gives city "A  B" (the interior whitespace around the removed
zip text is NOT removed, only string-boundary whitespace is stripped), not
"A B".  Second input: the zip extracted from the PlaceName fragment does
not become the zip of the Address, because a later ZipCode tag overwrites
it. -/
theorem claim_C9_counterexample :
    normalize_address 2 [("AddressNumber", "1"), ("StreetName", "MAIN"),
        ("PlaceName", "A 12345 B"), ("StateName", "NJ")] "Street Address" =
      some (.ok ⟨"1", "MAIN", "A  B", "NJ", "12345"⟩) ∧
    normalize_address 2 [("AddressNumber", "1"), ("StreetName", "MAIN"),
        ("PlaceName", "TOWN 12345"), ("ZipCode", "99999"), ("StateName", "NJ")]
        "Street Address" =
      some (.ok ⟨"1", "MAIN", "TOWN", "NJ", "99999"⟩) :=
  ⟨by decide, by decide⟩

/-- Witness for C9 as amended at a concrete input. -/
theorem claim_C9_witness :
    initState.zipc = none ∧
    zipsSearch ("A 12345 B".data) = some ['1', '2', '3', '4', '5'] ∧
    stepTag [] initState "PlaceName" "A 12345 B" =
      .ok { initState with
            zipc := some ⟨['1', '2', '3', '4', '5']⟩,
            city := some (pyStrip (pyReplace "A 12345 B" ⟨['1', '2', '3', '4', '5']⟩ "")) } :=
  ⟨rfl, by decide,
   claim_C9_embedded_zip [] initState "A 12345 B" ['1', '2', '3', '4', '5'] rfl (by decide)⟩

/-- Witness for C4 at a concrete input exercising every slot: pre-modifier
OLD with pre-type ROUTE, both directionals, post-type HIGHWAY, sub-address
BLDG 7 and occupancy APT 2. -/
theorem claim_C4_witness :
    tagLoop [("AddressNumber", "10"), ("StreetNamePreModifier", "OLD"),
        ("StreetNamePreType", "ROUTE"), ("StreetNamePreDirectional", "N"),
        ("StreetName", "66"), ("StreetNamePostDirectional", "W"),
        ("StreetNamePostType", "HIGHWAY"), ("SubaddressType", "BLDG"),
        ("SubaddressIdentifier", "7"), ("OccupancyType", "APT"),
        ("OccupancyIdentifier", "2"), ("PlaceName", "SPRINGFIELD"),
        ("StateName", "IL"), ("ZipCode", "62701"), ("ZipPlus4", "0001")] =
      .ok ⟨some "10", none, some "OLD ROUTE", some "66", some "N", some "W",
           some "HIGHWAY", some "BLDG 7", some "APT 2", some "SPRINGFIELD",
           some "IL", some "62701-0001"⟩ ∧
    normalize_address 5 [("AddressNumber", "10"), ("StreetNamePreModifier", "OLD"),
        ("StreetNamePreType", "ROUTE"), ("StreetNamePreDirectional", "N"),
        ("StreetName", "66"), ("StreetNamePostDirectional", "W"),
        ("StreetNamePostType", "HIGHWAY"), ("SubaddressType", "BLDG"),
        ("SubaddressIdentifier", "7"), ("OccupancyType", "APT"),
        ("OccupancyIdentifier", "2"), ("PlaceName", "SPRINGFIELD"),
        ("StateName", "IL"), ("ZipCode", "62701"), ("ZipPlus4", "0001")]
        "Street Address" =
      some (.ok ⟨"10", "N OLD ROUTE 66 HWY W BLDG 7 APT 2", "SPRINGFIELD", "IL",
                 "62701-0001"⟩) ∧
    (∃ r, street_to_abbreviated 5
        (specCore ⟨some "10", none, some "OLD ROUTE", some "66", some "N", some "W",
                   some "HIGHWAY", some "BLDG 7", some "APT 2", some "SPRINGFIELD",
                   some "IL", some "62701-0001"⟩ "66") = some r ∧
      (⟨"10", "N OLD ROUTE 66 HWY W BLDG 7 APT 2", "SPRINGFIELD", "IL",
        "62701-0001"⟩ : Address).street =
        pyUpper (specFinish ⟨some "10", none, some "OLD ROUTE", some "66", some "N",
                             some "W", some "HIGHWAY", some "BLDG 7", some "APT 2",
                             some "SPRINGFIELD", some "IL", some "62701-0001"⟩ r)) :=
  ⟨by decide, by decide,
   (claim_C4_assembly_order 5 [("AddressNumber", "10"), ("StreetNamePreModifier", "OLD"),
        ("StreetNamePreType", "ROUTE"), ("StreetNamePreDirectional", "N"),
        ("StreetName", "66"), ("StreetNamePostDirectional", "W"),
        ("StreetNamePostType", "HIGHWAY"), ("SubaddressType", "BLDG"),
        ("SubaddressIdentifier", "7"), ("OccupancyType", "APT"),
        ("OccupancyIdentifier", "2"), ("PlaceName", "SPRINGFIELD"),
        ("StateName", "IL"), ("ZipCode", "62701"), ("ZipPlus4", "0001")]
      ⟨some "10", none, some "OLD ROUTE", some "66", some "N", some "W",
       some "HIGHWAY", some "BLDG 7", some "APT 2", some "SPRINGFIELD",
       some "IL", some "62701-0001"⟩
      ⟨"10", "N OLD ROUTE 66 HWY W BLDG 7 APT 2", "SPRINGFIELD", "IL", "62701-0001"⟩
      "66" (by decide) (by decide) (by decide)).1⟩
theorem pyUpper_ne (s : String) (h : s ≠ "") : pyUpper s ≠ "" := by
  intro hc
  apply h
  rw [string_eq_empty_iff] at hc ⊢
  have hd : upperL s.data = [] := hc
  exact List.map_eq_nil_iff.mp hd

theorem append_space_ne (x y : String) : x ++ " " ++ y ≠ "" := by
  intro hc
  rw [string_eq_empty_iff, data_append, data_append] at hc
  rcases List.append_eq_nil.mp hc with ⟨h1, -⟩
  rcases List.append_eq_nil.mp h1 with ⟨-, h2⟩
  cases h2

theorem append_hyphen_ne (x y : String) : x ++ "-" ++ y ≠ "" := by
  intro hc
  rw [string_eq_empty_iff, data_append, data_append] at hc
  rcases List.append_eq_nil.mp hc with ⟨h1, -⟩
  rcases List.append_eq_nil.mp h1 with ⟨-, h2⟩
  cases h2

theorem replaceFuel_ne (n v : List Char) (fuel : Nat) (h : List Char)
    (hv : v ≠ []) (hh : h ≠ []) : replaceFuel n v fuel h ≠ [] := by
  cases h with
  | nil => exact absurd rfl hh
  | cons c t =>
    cases fuel with
    | zero => exact hh
    | succ fuel =>
      show (if isPref n (c :: t) then
              match n with
              | [] => v ++ c :: replaceFuel [] v fuel t
              | _ :: n' => v ++ replaceFuel n v fuel (t.drop n'.length)
            else c :: replaceFuel n v fuel t) ≠ []
      split_ifs with hp
      · cases n with
        | nil =>
          intro hc
          rcases List.append_eq_nil.mp hc with ⟨-, h2⟩
          cases h2
        | cons a n' =>
          intro hc
          rcases List.append_eq_nil.mp hc with ⟨h1, -⟩
          exact hv h1
      · intro hc; cases hc

theorem replaceAllL_ne (n v h : List Char) (hv : v ≠ []) (hh : h ≠ []) :
    replaceAllL n v h ≠ [] :=
  replaceFuel_ne n v h.length h hv hh

theorem upperL_ne (l : List Char) (h : l ≠ []) : upperL l ≠ [] := by
  intro hc
  exact h (List.map_eq_nil_iff.mp hc)

theorem foldl_selStep_cases (su : List Char) :
    ∀ (l : List (String × String)) (acc : String),
      l.foldl (selStep su) acc = acc ∨ ∃ kv ∈ l, l.foldl (selStep su) acc = kv.1 := by
  intro l
  induction l with
  | nil => intro acc; exact Or.inl rfl
  | cons kv rest ih =>
    intro acc
    have hfold : (kv :: rest).foldl (selStep su) acc =
        rest.foldl (selStep su) (selStep su acc kv) := rfl
    rw [hfold]
    rcases ih (selStep su acc kv) with h | ⟨kv', hm, h⟩
    · rw [h]
      unfold selStep
      split_ifs with h1 h2
      · exact Or.inr ⟨kv, List.mem_cons_self _ _, rfl⟩
      · exact Or.inl rfl
      · exact Or.inl rfl
    · exact Or.inr ⟨kv', List.mem_cons_of_mem _ hm, h⟩

theorem selectLongest_mem (su : List Char) (h : selectLongest su ≠ "") :
    ∃ kv ∈ suffix_mapping, selectLongest su = kv.1 := by
  rcases foldl_selStep_cases su suffix_mapping "" with hc | he
  · exact absurd hc h
  · exact he

theorem find?_key_exists (l : List (String × String)) (k : String)
    (h : ∃ kv ∈ l, kv.1 = k) :
    ∃ kv', l.find? (fun kv => kv.1 == k) = some kv' ∧ kv' ∈ l := by
  induction l with
  | nil => obtain ⟨kv, hm, -⟩ := h; cases hm
  | cons a rest ih =>
    by_cases ha : a.1 = k
    · refine ⟨a, ?_, List.mem_cons_self _ _⟩
      rw [List.find?_cons_of_pos]
      simp [ha]
    · obtain ⟨kv, hm, hkv⟩ := h
      rcases List.mem_cons.mp hm with rfl | hm'
      · exact absurd hkv ha
      · obtain ⟨kv', hf, hmem⟩ := ih ⟨kv, hm', hkv⟩
        refine ⟨kv', ?_, List.mem_cons_of_mem _ hmem⟩
        rw [List.find?_cons_of_neg]
        · exact hf
        · simp [ha]

theorem suffix_vals_ne : ∀ kv ∈ suffix_mapping, kv.2 ≠ "" := by decide

theorem mappingVal_ne (k : String) (h : ∃ kv ∈ suffix_mapping, kv.1 = k) :
    mappingVal k ≠ "" := by
  obtain ⟨kv', hf, hm⟩ := find?_key_exists suffix_mapping k h
  unfold mappingVal
  rw [hf]
  exact suffix_vals_ne kv' hm

theorem mapover_ne (s : String) (h : s ≠ "") : mapover s ≠ "" := by
  unfold mapover
  by_cases hsel : selectLongest (upperL s.data) = ""
  · rw [if_pos hsel]; exact h
  · rw [if_neg hsel]
    rw [Ne, string_eq_empty_iff]
    refine replaceAllL_ne _ _ _ ?_ ?_
    · obtain ⟨kv, hm, heq⟩ := selectLongest_mem _ hsel
      have hv := mappingVal_ne _ ⟨kv, hm, heq.symm⟩
      rw [Ne, string_eq_empty_iff] at hv
      exact hv
    · refine upperL_ne _ ?_
      exact fun hc => h ((string_eq_empty_iff s).mpr hc)

theorem abbrev_ne (fuel : Nat) :
    ∀ s r, street_to_abbreviated fuel s = some r → s ≠ "" → r ≠ "" := by
  induction fuel with
  | zero => intro s r h; cases h
  | succ fuel ih =>
    intro s r h hs
    simp only [street_to_abbreviated] at h
    by_cases hc : mapover s = s
    · rw [if_pos hc] at h
      cases h
      rw [hc]
      exact hs
    · rw [if_neg hc] at h
      exact ih _ _ h (mapover_ne s hs)

theorem matchZipAt_ne (l m : List Char) (h : matchZipAt l = some m) : m ≠ [] := by
  rcases l with _ | ⟨c1, _ | ⟨c2, _ | ⟨c3, _ | ⟨c4, _ | ⟨c5, rest⟩⟩⟩⟩⟩ <;>
    simp only [matchZipAt] at h <;> try cases h
  split_ifs at h with h1
  split at h
  · split_ifs at h with h2
    · cases h; simp
    · cases h; simp
  · cases h; simp

theorem zipsSearch_ne (l m : List Char) (h : zipsSearch l = some m) : m ≠ [] := by
  induction l with
  | nil => cases h
  | cons c t ih =>
    simp only [zipsSearch] at h
    cases hm : matchZipAt (c :: t) with
    | some m' => rw [hm] at h; cases h; exact matchZipAt_ne _ _ hm
    | none => rw [hm] at h; exact ih h

theorem mk_string_ne (m : List Char) (h : m ≠ []) : (⟨m⟩ : String) ≠ "" :=
  fun hc => h ((string_eq_empty_iff _).mp hc)

theorem optNE_some (s : String) (h : s ≠ "") : optNE (some s) := by
  intro x hx
  cases hx
  exact h

theorem lookupTag_ne (ts : List (String × String)) (k : String)
    (hv : ∀ kv ∈ ts, kv.2 ≠ "") (hk : hasKey ts k = true) : lookupTag ts k ≠ "" := by
  obtain ⟨kv, hm, hkv⟩ := hasKey_true_exists ts k hk
  obtain ⟨kv', hf, hm'⟩ := find?_key_exists ts k ⟨kv, hm, hkv⟩
  unfold lookupTag
  rw [hf]
  exact hv kv' hm'

theorem valsOK_init : valsOK initState := by
  refine ⟨?_, ?_, ?_, ?_, ?_, ?_, ?_, ?_, ?_, ?_, ?_⟩ <;> (intro s hs; cases hs)

theorem stepTag_valsOK (ts : List (String × String)) (st : LoopState) (tag val : String)
    (st' : LoopState) (hvts : ∀ kv ∈ ts, kv.2 ≠ "") (hval : val ≠ "")
    (h : stepTag ts st tag val = .ok st') (hOK : valsOK st) : valsOK st' := by
  obtain ⟨o1, o2, o3, o4, o5, o6, o7, o8, o9, o10, o11⟩ := hOK
  rcases stepTag_shape ts st tag val st' h with
    ⟨rfl, rfl⟩ | ⟨rfl, rfl⟩ | ⟨hd, ⟨hP, hQ, rfl⟩ | rfl | rfl⟩ | ⟨rfl, rfl⟩ | ⟨rfl, rfl⟩ |
    ⟨rfl, rfl⟩ | ⟨rfl, rfl⟩ | ⟨rfl, hk, rfl⟩ | ⟨rfl, rfl⟩ | ⟨rfl, rfl⟩ | ⟨rfl, rfl⟩ |
    ⟨rfl, ⟨m, hz, hn, rfl⟩ | rfl⟩ | ⟨rfl, rfl⟩ | ⟨rfl, rfl⟩ | ⟨rfl, rfl⟩
  · exact ⟨optNE_some val hval, o2, o3, o4, o5, o6, o7, o8, o9, o10, o11⟩
  · exact ⟨o1, optNE_some val hval, o3, o4, o5, o6, o7, o8, o9, o10, o11⟩
  · exact ⟨o1, o2, o3, o4,
      optNE_some _ (lookupTag_ne ts _ hvts hP),
      optNE_some _ (lookupTag_ne ts _ hvts hQ), o7, o8, o9, o10, o11⟩
  · exact ⟨o1, o2, o3, o4, optNE_some val hval, o6, o7, o8, o9, o10, o11⟩
  · exact ⟨o1, o2, o3, o4, o5, optNE_some val hval, o7, o8, o9, o10, o11⟩
  · refine ⟨o1, o2, optNE_some _ ?_, o4, o5, o6, o7, o8, o9, o10, o11⟩
    split_ifs with hm
    · exact append_space_ne _ _
    · exact hval
  · exact ⟨o1, o2, o3, o4, o5, o6, o7, o8, o9, o10, o11⟩
  · exact ⟨o1, o2, o3, optNE_some val hval, o5, o6, o7, o8, o9, o10, o11⟩
  · exact ⟨o1, o2, o3, o4, o5, o6, optNE_some val hval, o8, o9, o10, o11⟩
  · exact ⟨o1, o2, o3, o4, o5, o6, o7, optNE_some _ (append_space_ne _ _), o9, o10, o11⟩
  · exact ⟨o1, o2, o3, o4, o5, o6, o7, o8, o9, o10, o11⟩
  · refine ⟨o1, o2, o3, o4, o5, o6, o7, o8, optNE_some _ ?_, o10, o11⟩
    split_ifs with hm
    · exact append_space_ne _ _
    · exact hval
  · exact ⟨o1, o2, o3, o4, o5, o6, o7, o8, o9, o10, o11⟩
  · exact ⟨o1, o2, o3, o4, o5, o6, o7, o8, o9, o10,
      optNE_some _ (mk_string_ne m (zipsSearch_ne _ m hz))⟩
  · exact ⟨o1, o2, o3, o4, o5, o6, o7, o8, o9, o10, o11⟩
  · exact ⟨o1, o2, o3, o4, o5, o6, o7, o8, o9, optNE_some val hval, o11⟩
  · refine ⟨o1, o2, o3, o4, o5, o6, o7, o8, o9, o10, optNE_some _ ?_⟩
    split_ifs with hm
    · exact append_hyphen_ne _ _
    · exact hval
  · exact ⟨o1, o2, o3, o4, o5, o6, o7, o8, o9, o10, o11⟩

theorem runTags_valsOK (ts : List (String × String)) (hvts : ∀ kv ∈ ts, kv.2 ≠ "") :
    ∀ (l : List (String × String)) (st st' : LoopState),
      runTags ts l st = .ok st' → (∀ kv ∈ l, kv.2 ≠ "") → valsOK st → valsOK st' := by
  intro l
  induction l with
  | nil => intro st st' h _ hOK; cases h; exact hOK
  | cons tv rest ih =>
    intro st st' h hl hOK
    obtain ⟨tag, val⟩ := tv
    simp only [runTags] at h
    cases hst : stepTag ts st tag val with
    | ok st1 =>
      rw [hst] at h
      have hv1 : val ≠ "" := hl (tag, val) (List.mem_cons_self _ _)
      exact ih st1 st' h (fun kv hkv => hl kv (List.mem_cons_of_mem _ hkv))
        (stepTag_valsOK ts st tag val st1 hvts hv1 hst hOK)
    | error e => rw [hst] at h; cases h

theorem postAssemble_spec (fuel : Nat) (st : LoopState) (num0 name : String)
    (hnum : st.add_number = some num0) (hsn : st.street_name = some name) :
    postAssemble fuel st =
      match street_to_abbreviated fuel (specCore st name) with
      | none => none
      | some r =>
        if st.city = none ∨ st.state_name = none ∨ st.zipc = none then
          some (.error "Missing city, state, or zip")
        else
          some (.ok ⟨pyUpper (if truthy st.add_number_suffix = true then
                        num0 ++ " " ++ st.add_number_suffix.getD ""
                      else num0),
                     pyUpper (specFinish st r), pyUpper (st.city.getD ""),
                     pyUpper (st.state_name.getD ""), st.zipc.getD ""⟩) := by
  unfold postAssemble
  rw [hnum, hsn]
  rfl

theorem specCore_ne (st : LoopState) (name : String) (h : name ≠ "") :
    specCore st name ≠ "" := by
  unfold specCore
  split_ifs <;> first | exact append_space_ne _ _ | exact h

theorem specFinish_ne (st : LoopState) (r : String) (h : r ≠ "") :
    specFinish st r ≠ "" := by
  unfold specFinish
  split_ifs <;> first | exact append_space_ne _ _ | exact h

/-- C3 as amended.  Whenever normalize_address returns an Address from a
tag mapping whose fragments are all non-empty, the number, street, state
and zip fields are non-empty.  The city field is excluded: it can be the
empty string when the place-name fragment consists entirely of an embedded
zip pattern (the counterexample), so construction is not all-or-nothing
with respect to city non-emptiness. -/
theorem claim_C3_nonempty_fields (fuel : Nat) (ts : List (String × String)) (a : Address)
    (hv : ∀ kv ∈ ts, kv.2 ≠ "")
    (hres : normalize_address fuel ts "Street Address" = some (.ok a)) :
    a.number ≠ "" ∧ a.street ≠ "" ∧ a.state ≠ "" ∧ a.zipc ≠ "" := by
  unfold normalize_address at hres
  rw [if_neg (by simp)] at hres
  cases htl : tagLoop ts with
  | error e =>
    rw [htl] at hres
    have hres' : (some (.error e) : Option (Except String Address)) = some (.ok a) := hres
    simp at hres'
  | ok st =>
    rw [htl] at hres
    have hres' : postAssemble fuel st = some (.ok a) := hres
    clear hres
    have hOK : valsOK st := runTags_valsOK ts hv ts initState st htl hv valsOK_init
    obtain ⟨o1, o2, o3, o4, o5, o6, o7, o8, o9, o10, o11⟩ := hOK
    cases hnum : st.add_number with
    | none =>
      unfold postAssemble at hres'
      rw [hnum] at hres'
      simp at hres'
    | some num0 =>
      cases hsn : st.street_name with
      | none =>
        unfold postAssemble at hres'
        simp only [hnum, hsn] at hres'
        simp at hres'
      | some name0 =>
        have hnum_ne : num0 ≠ "" := o1 num0 hnum
        have hname_ne : name0 ≠ "" := o4 name0 hsn
        have hpost := postAssemble_spec fuel st num0 name0 hnum hsn
        cases habb : street_to_abbreviated fuel (specCore st name0) with
        | none =>
          rw [habb] at hpost
          have h0 : postAssemble fuel st = none := hpost
          rw [h0] at hres'
          cases hres'
        | some r =>
          rw [habb] at hpost
          have hpost2 : postAssemble fuel st =
              (if st.city = none ∨ st.state_name = none ∨ st.zipc = none then
                some (Except.error "Missing city, state, or zip")
              else
                some (Except.ok ⟨pyUpper (if truthy st.add_number_suffix = true then
                          num0 ++ " " ++ st.add_number_suffix.getD ""
                        else num0),
                       pyUpper (specFinish st r), pyUpper (st.city.getD ""),
                       pyUpper (st.state_name.getD ""), st.zipc.getD ""⟩)) := hpost
          rw [hpost2] at hres'
          by_cases hcsz : st.city = none ∨ st.state_name = none ∨ st.zipc = none
          · rw [if_pos hcsz] at hres'
            simp at hres'
          · rw [if_neg hcsz] at hres'
            have h1 := Except.ok.inj (Option.some.inj hres')
            push_neg at hcsz
            obtain ⟨-, hst2, hz2⟩ := hcsz
            cases hsv : st.state_name with
            | none => exact absurd hsv hst2
            | some sv =>
              cases hzv : st.zipc with
              | none => exact absurd hzv hz2
              | some zv =>
                rw [← h1]
                refine ⟨?_, ?_, ?_, ?_⟩
                · show pyUpper (if truthy st.add_number_suffix = true then
                        num0 ++ " " ++ st.add_number_suffix.getD ""
                      else num0) ≠ ""
                  split_ifs with hsx
                  · exact pyUpper_ne _ (append_space_ne _ _)
                  · exact pyUpper_ne _ hnum_ne
                · exact pyUpper_ne _ (specFinish_ne st r
                    (abbrev_ne fuel _ r habb (specCore_ne st name0 hname_ne)))
                · show pyUpper (st.state_name.getD "") ≠ ""
                  rw [hsv]
                  exact pyUpper_ne _ (o10 sv hsv)
                · show st.zipc.getD "" ≠ ""
                  rw [hzv]
                  exact o11 zv hzv

/-- C3, counterexample to the claim as stated: a PlaceName fragment that is
entirely a zip pattern yields a successfully constructed Address whose city
field is the empty string - the zip is extracted and stripping leaves
nothing, yet construction does not fail. -/
theorem claim_C3_counterexample :
    normalize_address 1 [("AddressNumber", "1"), ("StreetName", "MAIN"),
        ("PlaceName", "12345"), ("StateName", "NJ")] "Street Address" =
      some (.ok ⟨"1", "MAIN", "", "NJ", "12345"⟩) := by decide

/-- Witness for C3 as amended at a concrete input. -/
theorem claim_C3_witness :
    (∀ kv ∈ ([("AddressNumber", "1"), ("StreetName", "MAIN"), ("PlaceName", "TOWN"),
              ("StateName", "NJ"), ("ZipCode", "07001")] : List (String × String)),
      kv.2 ≠ "") ∧
    normalize_address 1 [("AddressNumber", "1"), ("StreetName", "MAIN"),
        ("PlaceName", "TOWN"), ("StateName", "NJ"), ("ZipCode", "07001")]
        "Street Address" = some (.ok ⟨"1", "MAIN", "TOWN", "NJ", "07001"⟩) ∧
    ((⟨"1", "MAIN", "TOWN", "NJ", "07001"⟩ : Address).number ≠ "" ∧
     (⟨"1", "MAIN", "TOWN", "NJ", "07001"⟩ : Address).street ≠ "" ∧
     (⟨"1", "MAIN", "TOWN", "NJ", "07001"⟩ : Address).state ≠ "" ∧
     (⟨"1", "MAIN", "TOWN", "NJ", "07001"⟩ : Address).zipc ≠ "") :=
  ⟨by decide, by decide,
   claim_C3_nonempty_fields 1
     [("AddressNumber", "1"), ("StreetName", "MAIN"), ("PlaceName", "TOWN"),
      ("StateName", "NJ"), ("ZipCode", "07001")]
     ⟨"1", "MAIN", "TOWN", "NJ", "07001"⟩ (by decide) (by decide)⟩
end USAddr
